import Mathlib

/-!
Shallow embedding of the TradeBot trading bot (C++ sources under `bot/src/`)
and verification of the specification claims about it.

Monetary amounts and percentages (C++ `double`) are modelled as exact
rationals `ℚ`; timestamps (`int64_t` epoch seconds / milliseconds) as `ℤ`
or `ℕ`; the bounded `std::deque` rolling windows as Lean lists with
push-back / pop-front.  Fallible operations return `Except`/`Bool` results
exactly where the C++ returns error-flagged result structs or throws.

The embedding follows the current strategy implementation
(`Strategy::update_indicators`, `check_exit_condition`, `execute_buy`,
`execute_sell` with partial exits and trailing stops), the exchange client
(`KrakenClient::apply_backoff`, `http_get`), and the persistence layer
(`TradingState::load`, `string_to_mode`).
-/

namespace TradeBot

/-- The trading modes of `enum class TradingMode` (state.hpp). -/
inductive TradingMode where
  | FLAT
  | LONG

/-- The decisions of `enum class Decision` (strategy.hpp). -/
inductive Decision where
  | NOOP
  | BUY
  | SELL
  | BLOCKED

/-- `struct TradingState` (state.hpp): the durable bot state. -/
structure TradingState where
  mode : TradingMode
  entry_price : Option ℚ
  exit_price : Option ℚ
  trailing_stop_price : Option ℚ
  btc_amount : ℚ
  last_trade_time : Option ℤ
  entry_time : Option ℤ
  trades_today : ℤ
  trades_date_yyyy_mm_dd : String
  partial_take_profit_done : Bool
  sim_cad_balance : ℚ
  sim_btc_balance : ℚ

/-- `struct Config` (config.hpp), restricted to the fields the strategy,
client and state logic read. -/
structure Config where
  take_profit_pct : ℚ
  stop_loss_pct : ℚ
  rebuy_reset_pct : ℚ
  trend_window_short : ℤ
  trend_window_long : ℤ
  require_trend_up : Bool
  atr_window : ℤ
  min_atr_pct : ℚ
  max_spread_pct : ℚ
  risk_per_trade_pct : ℚ
  max_position_pct : ℚ
  min_cad_required_pct : ℚ
  partial_tp_pct : ℚ
  partial_tp_sell_pct : ℚ
  trailing_stop_pct : ℚ
  max_hold_seconds : ℤ
  use_dynamic_tp_sl : Bool
  tp_atr_mult : ℚ
  sl_atr_mult : ℚ
  cooldown_seconds : ℤ
  max_trades_per_day : ℤ
  dry_run : Bool
  sim_fee_pct_roundtrip : ℚ
  max_consecutive_failures : ℤ
  stale_price_seconds : ℤ

/-- `struct PositionSizing` (strategy.hpp). -/
structure PositionSizing where
  equity_cad : ℚ := 0
  available_cad : ℚ := 0
  risk_cad : ℚ := 0
  raw_position_cad : ℚ := 0
  max_position_cad : ℚ := 0
  position_cad : ℚ := 0
  fee_buffer_cad : ℚ := 0
  btc_to_buy : ℚ := 0
  can_trade : Bool := false
  block_reason : String := ""

/-- `struct TradeContext` (strategy.hpp), the per-cycle scratch record.
The C++ field `is_partial_exit` is rendered as `partialExitFlag`. -/
structure TradeContext where
  current_price : ℚ := 0
  price_timestamp : ℤ := 0
  price_stale : Bool := false
  bid_price : ℚ := 0
  ask_price : ℚ := 0
  spread_pct : ℚ := 0
  atr : ℚ := 0
  sma_short : ℚ := 0
  sma_long : ℚ := 0
  tp_price : ℚ := 0
  sl_price : ℚ := 0
  rebuy_price : ℚ := 0
  sizing : PositionSizing := {}
  decision : Decision := Decision.NOOP
  decision_reason : String := ""
  sell_volume : ℚ := 0
  partialExitFlag : Bool := false

/-- Result of `KrakenClient::get_ticker`. -/
structure TickerResult where
  success : Bool := false
  last_price : ℚ := 0
  bid_price : ℚ := 0
  ask_price : ℚ := 0
  timestamp : ℤ := 0
  error : String := ""

/-- Result of `KrakenClient::get_balance`. -/
structure BalanceResult where
  success : Bool := false
  cad_balance : ℚ := 0
  btc_balance : ℚ := 0
  error : String := ""

/-- Result of `KrakenClient::place_market_order` / `query_order`. -/
structure OrderResult where
  success : Bool := false
  txid : String := ""
  status : String := ""
  volume : ℚ := 0
  avg_price : ℚ := 0
  fee : ℚ := 0
  error : String := ""

/-- The external inputs consumed during one `Strategy::evaluate` cycle:
the ticker response, the balance response, the wall clock
(`util::now_epoch_seconds`), today's date (`util::today_yyyy_mm_dd`) and
the client's consecutive-failure counter. -/
structure EvalEnv where
  ticker : TickerResult
  balance : BalanceResult
  now : ℤ
  today : String
  consecutive_failures : ℤ

/-- The rolling indicator windows owned by `Strategy`
(`price_history_` and `tr_history_`, both `std::deque<double>`). -/
structure IndicatorHist where
  priceHistory : List ℚ := []
  trHistory : List ℚ := []

deriving instance DecidableEq for TradingMode
deriving instance DecidableEq for Decision
deriving instance DecidableEq for TradingState
deriving instance DecidableEq for Config
deriving instance DecidableEq for PositionSizing
deriving instance DecidableEq for TradeContext
deriving instance DecidableEq for TickerResult
deriving instance DecidableEq for BalanceResult
deriving instance DecidableEq for OrderResult
deriving instance DecidableEq for EvalEnv
deriving instance DecidableEq for IndicatorHist

/-! ## TradingState helpers (state.cpp) -/

/-- `TradingState::check_date_rollover` (state.cpp). -/
def check_date_rollover (today : String) (s : TradingState) : TradingState :=
  if s.trades_date_yyyy_mm_dd ≠ today then
    { s with trades_today := 0, trades_date_yyyy_mm_dd := today }
  else
    s

/-- `TradingState::is_in_cooldown` (state.cpp). -/
def is_in_cooldown (s : TradingState) (now cooldown_seconds : ℤ) : Bool :=
  match s.last_trade_time with
  | none => false
  | some t => now - t < cooldown_seconds

/-- `TradingState::cooldown_remaining` (state.cpp). -/
def cooldown_remaining (s : TradingState) (now cooldown_seconds : ℤ) : ℤ :=
  match s.last_trade_time with
  | none => 0
  | some t =>
    let remaining := cooldown_seconds - (now - t)
    if remaining > 0 then remaining else 0

/-! ## Position sizing (Strategy::calculate_sizing, util.cpp strategy part) -/

/-- The arithmetic part of `Strategy::calculate_sizing` once equity and
available balance are known: fee buffer, percent-risk sizing with the
guarded division by `stop_loss_pct`, the `max_position_pct` cap and the
tradeability verdict. -/
def sizing_from_balances (cfg : Config) (current_price equity available : ℚ) :
    PositionSizing :=
  let fee_buffer : ℚ := max 1 (equity * cfg.min_cad_required_pct)
  let risk : ℚ := equity * cfg.risk_per_trade_pct
  let raw : ℚ := if cfg.stop_loss_pct > 0 then risk / cfg.stop_loss_pct else 0
  let maxPos : ℚ := equity * cfg.max_position_pct
  let pos : ℚ := min raw maxPos
  let btcToBuy : ℚ := if current_price > 0 then pos / current_price else 0
  let required : ℚ := pos + fee_buffer
  { equity_cad := equity, available_cad := available,
    risk_cad := risk, raw_position_cad := raw,
    max_position_cad := maxPos, position_cad := pos,
    fee_buffer_cad := fee_buffer, btc_to_buy := btcToBuy,
    can_trade := if available < required then false
      else if pos < 1 then false else true,
    block_reason := if available < required then
        "Insufficient CAD: need " ++ toString required ++
          ", have " ++ toString available
      else if pos < 1 then
        "Position size too small: " ++ toString pos ++ " CAD"
      else "" }

/-- `Strategy::calculate_sizing`.  In dry-run mode equity comes from the
simulated balances, in live mode from the `get_balance` response; an
unsuccessful balance fetch leaves the fresh sizing untouched except for
`can_trade = false` and a block reason. -/
def calculate_sizing (cfg : Config) (s : TradingState) (env : EvalEnv)
    (ctx : TradeContext) : TradeContext :=
  let base? : Option (ℚ × ℚ) :=
    if cfg.dry_run then
      if s.mode = TradingMode.FLAT then
        some (s.sim_cad_balance, s.sim_cad_balance)
      else
        some (s.sim_cad_balance + s.sim_btc_balance * ctx.current_price,
              s.sim_cad_balance)
    else if env.balance.success then
      some (env.balance.cad_balance + env.balance.btc_balance * ctx.current_price,
            env.balance.cad_balance)
    else
      none
  match base? with
  | none =>
    { ctx with sizing :=
      { ctx.sizing with
        can_trade := false,
        block_reason := "Balance fetch failed: " ++ env.balance.error } }
  | some (equity, available) =>
    { ctx with sizing := sizing_from_balances cfg ctx.current_price equity available }

/-! ## Indicators and filters (Strategy::update_indicators etc.) -/

/-- The SMA computation of `Strategy::update_indicators` once the price
window holds at least `trend_window_long` samples: means over the suffixes
starting at `start`/`shortStart`. -/
def sma_windows (cfg : Config) (L : List ℚ) (fb : ℚ × ℚ) : ℚ × ℚ :=
  let len := L.length
  let start := len - cfg.trend_window_long.toNat
  let shortStart := max start (len - cfg.trend_window_short.toNat)
  let longList := L.drop start
  let shortList := L.drop shortStart
  ((if shortList.length ≠ 0 then shortList.sum / (shortList.length : ℚ)
    else fb.1),
   (if longList.length ≠ 0 then longList.sum / (longList.length : ℚ)
    else fb.2))

/-- `Strategy::update_indicators`.  True range is the absolute delta of the
last two prices; both windows are push-back / pop-front bounded deques. -/
def update_indicators (cfg : Config) (h : IndicatorHist) (ctx : TradeContext) :
    IndicatorHist × TradeContext :=
  if ctx.current_price ≤ 0 then (h, ctx)
  else
    let trHist1 :=
      match h.priceHistory.getLast? with
      | none => h.trHistory
      | some prev =>
        let l := h.trHistory ++ [|ctx.current_price - prev|]
        if (l.length : ℤ) > cfg.atr_window then l.tail else l
    let priceHist1 :=
      let l := h.priceHistory ++ [ctx.current_price]
      if (l.length : ℤ) > cfg.trend_window_long then l.tail else l
    let atr1 : ℚ :=
      if cfg.atr_window > 0 ∧ trHist1 ≠ [] then
        trHist1.sum / (trHist1.length : ℚ)
      else ctx.atr
    let smaPair : ℚ × ℚ :=
      if cfg.trend_window_short > 0 ∧ cfg.trend_window_long > 0 ∧
          (priceHist1.length : ℤ) ≥ cfg.trend_window_long then
        sma_windows cfg priceHist1 (ctx.sma_short, ctx.sma_long)
      else (ctx.sma_short, ctx.sma_long)
    let spread1 : ℚ :=
      if ctx.bid_price > 0 ∧ ctx.ask_price > 0 ∧ ctx.ask_price ≥ ctx.bid_price then
        let mid := (ctx.bid_price + ctx.ask_price) / 2
        if mid > 0 then (ctx.ask_price - ctx.bid_price) / mid else ctx.spread_pct
      else ctx.spread_pct
    (⟨priceHist1, trHist1⟩,
     { ctx with
       atr := atr1,
       sma_short := smaPair.1,
       sma_long := smaPair.2,
       spread_pct := spread1 })

/-- `Strategy::passes_trend_filter`. -/
def passes_trend_filter (cfg : Config) (ctx : TradeContext) : Bool :=
  if ¬ cfg.require_trend_up then true
  else if ctx.sma_short ≤ 0 ∨ ctx.sma_long ≤ 0 then false
  else ctx.sma_short ≥ ctx.sma_long

/-- `Strategy::passes_volatility_filter`. -/
def passes_volatility_filter (cfg : Config) (ctx : TradeContext) : Bool :=
  if cfg.min_atr_pct ≤ 0 ∨ ctx.current_price ≤ 0 then true
  else if ctx.atr ≤ 0 then false
  else ctx.atr / ctx.current_price ≥ cfg.min_atr_pct

/-! ## Price fetch, blocking and market gates -/

/-- `Strategy::fetch_price`: copies the ticker into the context and blocks on
fetch failure or a stale timestamp. -/
def fetch_price (cfg : Config) (env : EvalEnv) (ctx : TradeContext) :
    TradeContext × Bool :=
  if ¬ env.ticker.success then
    ({ ctx with
       decision := Decision.BLOCKED,
       decision_reason := "Price fetch failed: " ++ env.ticker.error }, false)
  else
    let ctx1 := { ctx with
      current_price := env.ticker.last_price,
      bid_price := env.ticker.bid_price,
      ask_price := env.ticker.ask_price,
      price_timestamp := env.ticker.timestamp }
    let age := env.now - ctx1.price_timestamp
    let stale := age > cfg.stale_price_seconds
    let ctx2 := { ctx1 with price_stale := stale }
    if stale then
      ({ ctx2 with
         decision := Decision.BLOCKED,
         decision_reason := "Price data is stale" }, false)
    else (ctx2, true)

/-- `Strategy::check_blocking_conditions`: cooldown, daily trade cap,
consecutive API failure ceiling. -/
def check_blocking_conditions (cfg : Config) (s : TradingState) (env : EvalEnv)
    (ctx : TradeContext) : TradeContext × Bool :=
  if is_in_cooldown s env.now cfg.cooldown_seconds then
    ({ ctx with
       decision := Decision.BLOCKED,
       decision_reason := "Cooldown active: " ++
         toString (cooldown_remaining s env.now cfg.cooldown_seconds) ++
         "s remaining" }, true)
  else if s.trades_today ≥ cfg.max_trades_per_day then
    ({ ctx with
       decision := Decision.BLOCKED,
       decision_reason := "Max trades per day reached: " ++
         toString s.trades_today ++ "/" ++ toString cfg.max_trades_per_day }, true)
  else if env.consecutive_failures ≥ cfg.max_consecutive_failures then
    ({ ctx with
       decision := Decision.BLOCKED,
       decision_reason := "Too many consecutive API failures: " ++
         toString env.consecutive_failures }, true)
  else (ctx, false)

/-- `Strategy::check_market_conditions`: spread, volatility, trend gates. -/
def check_market_conditions (cfg : Config) (ctx : TradeContext) :
    TradeContext × Bool :=
  if cfg.max_spread_pct > 0 ∧ ctx.spread_pct > cfg.max_spread_pct then
    ({ ctx with
       decision := Decision.BLOCKED,
       decision_reason := "Spread too wide: " ++ toString (ctx.spread_pct * 100) ++
         "%" }, true)
  else if ¬ passes_volatility_filter cfg ctx then
    ({ ctx with
       decision := Decision.BLOCKED,
       decision_reason := "Volatility too low (ATR): " ++ toString ctx.atr }, true)
  else if ¬ passes_trend_filter cfg ctx then
    ({ ctx with
       decision := Decision.BLOCKED,
       decision_reason := "Trend filter: SMA short below SMA long" }, true)
  else (ctx, false)

/-! ## Entry and exit conditions -/

/-- `Strategy::check_entry_condition`: first-ever trade enters immediately,
otherwise the price must have reset below `exit_price * (1 - rebuy_reset_pct)`. -/
def check_entry_condition (cfg : Config) (s : TradingState) (ctx : TradeContext) :
    TradeContext × Bool :=
  match s.exit_price with
  | none =>
    ({ ctx with decision_reason := "First trade: entering immediately" }, true)
  | some e =>
    let rebuy := e * (1 - cfg.rebuy_reset_pct)
    let ctx1 := { ctx with rebuy_price := rebuy }
    if ctx1.current_price ≤ rebuy then
      ({ ctx1 with
         decision_reason := "Price reset condition met: " ++
           toString ctx1.current_price ++ " <= rebuy_price " ++ toString rebuy },
       true)
    else
      ({ ctx1 with
         decision_reason := "Waiting for price reset: current=" ++
           toString ctx1.current_price ++ ", rebuy_price=" ++ toString rebuy },
       false)

/-- `Strategy::check_exit_condition`: partial take-profit, trailing stop
(ratcheted up in the persisted state), time-based exit, take-profit and
stop-loss, in this order.  A missing entry price is a data-integrity error
and declines to exit. -/
def check_exit_condition (cfg : Config) (env : EvalEnv) (s : TradingState)
    (ctx : TradeContext) : TradingState × TradeContext × Bool :=
  match s.entry_price with
  | none =>
    (s, { ctx with decision_reason := "Error: missing entry price in LONG mode" },
     false)
  | some entry =>
    let tp : ℚ :=
      if cfg.use_dynamic_tp_sl ∧ ctx.atr > 0 then entry + ctx.atr * cfg.tp_atr_mult
      else entry * (1 + cfg.take_profit_pct)
    let sl : ℚ :=
      if cfg.use_dynamic_tp_sl ∧ ctx.atr > 0 then entry - ctx.atr * cfg.sl_atr_mult
      else entry * (1 - cfg.stop_loss_pct)
    let ctx := { ctx with tp_price := tp, sl_price := sl }
    if ¬ s.partial_take_profit_done ∧ cfg.partial_tp_pct > 0 ∧
        ctx.current_price ≥ entry * (1 + cfg.partial_tp_pct) then
      let current_btc := if cfg.dry_run then s.sim_btc_balance else s.btc_amount
      (s, { ctx with
            decision_reason := "Partial take profit triggered",
            partialExitFlag := true,
            sell_volume := current_btc * cfg.partial_tp_sell_pct }, true)
    else
      let s1 :=
        if cfg.trailing_stop_pct > 0 then
          let base := ctx.current_price * (1 - cfg.trailing_stop_pct)
          match s.trailing_stop_price with
          | none => { s with trailing_stop_price := some base }
          | some t =>
            if base > t then { s with trailing_stop_price := some base } else s
        else s
      if cfg.trailing_stop_pct > 0 ∧
          ctx.current_price ≤ s1.trailing_stop_price.getD 0 then
        (s1, { ctx with decision_reason := "Trailing stop triggered" }, true)
      else if cfg.max_hold_seconds > 0 ∧
          (s.entry_time.any fun et => decide (env.now - et ≥ cfg.max_hold_seconds)) = true then
        (s1, { ctx with decision_reason := "Time-based exit triggered" }, true)
      else if ctx.current_price ≥ ctx.tp_price then
        (s1, { ctx with
               decision_reason := "Take profit triggered: " ++
                 toString ctx.current_price ++ " >= tp_price " ++
                 toString ctx.tp_price }, true)
      else if ctx.current_price ≤ ctx.sl_price then
        (s1, { ctx with
               decision_reason := "Stop loss triggered: " ++
                 toString ctx.current_price ++ " <= sl_price " ++
                 toString ctx.sl_price }, true)
      else
        (s1, { ctx with
               decision_reason := "Holding position: price=" ++
                 toString ctx.current_price ++ ", entry=" ++ toString entry ++
                 ", tp=" ++ toString ctx.tp_price ++ ", sl=" ++
                 toString ctx.sl_price }, false)

/-! ## The per-cycle evaluation (Strategy::evaluate) -/

/-- The FLAT side of `Strategy::evaluate`: sizing, market gates, entry
check; decides BLOCKED, BUY or NOOP. -/
def evaluate_flat_branch (cfg : Config) (env : EvalEnv) (s : TradingState)
    (h : IndicatorHist) (ctx : TradeContext) :
    TradingState × IndicatorHist × TradeContext :=
  let ctx := calculate_sizing cfg s env ctx
  if ¬ ctx.sizing.can_trade then
    (s, h, { ctx with
             decision := Decision.BLOCKED,
             decision_reason := ctx.sizing.block_reason })
  else
    let (ctx, mblocked) := check_market_conditions cfg ctx
    if mblocked then (s, h, ctx)
    else
      let (ctx, enter) := check_entry_condition cfg s ctx
      if enter then (s, h, { ctx with decision := Decision.BUY })
      else (s, h, { ctx with decision := Decision.NOOP })

/-- The LONG side of `Strategy::evaluate`: pre-set the TP/SL levels for
logging, then run the exit check; decides SELL or NOOP. -/
def evaluate_long_branch (cfg : Config) (env : EvalEnv) (s : TradingState)
    (h : IndicatorHist) (ctx : TradeContext) :
    TradingState × IndicatorHist × TradeContext :=
  let ctx :=
    match s.entry_price with
    | some entry =>
      if cfg.use_dynamic_tp_sl ∧ ctx.atr > 0 then
        { ctx with
          tp_price := entry + ctx.atr * cfg.tp_atr_mult,
          sl_price := entry - ctx.atr * cfg.sl_atr_mult }
      else
        { ctx with
          tp_price := entry * (1 + cfg.take_profit_pct),
          sl_price := entry * (1 - cfg.stop_loss_pct) }
    | none => ctx
  let (s, ctx, exitFlag) := check_exit_condition cfg env s ctx
  if exitFlag then (s, h, { ctx with decision := Decision.SELL })
  else (s, h, { ctx with decision := Decision.NOOP })

/-- `Strategy::evaluate`: date rollover, price fetch, indicators, blocking
conditions, then the FLAT entry pipeline or the LONG exit pipeline. -/
def evaluate (cfg : Config) (env : EvalEnv) (h : IndicatorHist)
    (s : TradingState) : TradingState × IndicatorHist × TradeContext :=
  let s := check_date_rollover env.today s
  let ctx : TradeContext := {}
  let (ctx, fetched) := fetch_price cfg env ctx
  if ¬ fetched then (s, h, ctx)
  else
    let (h, ctx) := update_indicators cfg h ctx
    let (ctx, blocked) := check_blocking_conditions cfg s env ctx
    if blocked then (s, h, ctx)
    else if s.mode = TradingMode.FLAT then
      evaluate_flat_branch cfg env s h ctx
    else
      evaluate_long_branch cfg env s h ctx

/-! ## Execution and fill confirmation (Strategy::wait_for_fill etc.) -/

/-- The external inputs consumed during order execution: the
`place_market_order` response, the `query_order` responses indexed by
polling attempt, and the wall clock. -/
structure ExecEnv where
  order : OrderResult
  queries : ℕ → OrderResult
  now : ℤ

/-- Result of one execution: the C++ return value, the updated durable
state, and whether `TradingState::save` was called. -/
structure ExecResult where
  ok : Bool
  state : TradingState
  saved : Bool

deriving instance DecidableEq for ExecResult

/-- `Strategy::wait_for_fill`: poll `query_order` up to `fuel` times
(C++ default `max_attempts = 10`, 500 ms apart).  Returns the confirming
response on status `closed`, and `none` on a reported
`canceled`/`expired` order or an exhausted attempt budget. -/
def wait_for_fill (queries : ℕ → OrderResult) : ℕ → ℕ → Option OrderResult
  | 0, _ => none
  | fuel + 1, i =>
    let r := queries i
    if r.success ∧ r.status = "closed" then some r
    else if r.error ≠ "" ∧ (r.status = "canceled" ∨ r.status = "expired") then
      none
    else wait_for_fill queries fuel (i + 1)

/-- `Strategy::simulate_fill` (dry-run execution): synchronous fill against
the simulated balances, with the round-trip fee charged on sells only.
Always ends in `TradingState::save`. -/
def simulate_fill (cfg : Config) (now : ℤ) (s : TradingState) (side : String)
    (btc_amount price : ℚ) : TradingState :=
  if side = "buy" then
    let cost := btc_amount * price
    { s with
      sim_cad_balance := s.sim_cad_balance - cost,
      sim_btc_balance := btc_amount,
      entry_price := some price,
      btc_amount := btc_amount,
      mode := TradingMode.LONG,
      trades_today := s.trades_today + 1,
      last_trade_time := some now,
      entry_time := some now,
      partial_take_profit_done := false,
      trailing_stop_price :=
        if cfg.trailing_stop_pct > 0 then
          some (price * (1 - cfg.trailing_stop_pct))
        else none }
  else
    let proceeds0 := btc_amount * price
    let fee := proceeds0 * cfg.sim_fee_pct_roundtrip
    let proceeds := proceeds0 - fee
    let s1 := { s with
      sim_cad_balance := s.sim_cad_balance + proceeds,
      sim_btc_balance := max 0 (s.sim_btc_balance - btc_amount),
      exit_price := some price,
      btc_amount := max 0 (s.btc_amount - btc_amount) }
    let s2 :=
      if s1.btc_amount > 0 then
        { s1 with partial_take_profit_done := true }
      else
        { s1 with
          mode := TradingMode.FLAT,
          entry_time := none,
          trailing_stop_price := none }
    { s2 with trades_today := s2.trades_today + 1, last_trade_time := some now }

/-- `Strategy::execute_buy`: simulate in dry-run mode; in live mode place
the order, poll for the fill, and mutate + save the state only on a
confirmed `closed` fill. -/
def execute_buy (cfg : Config) (e : ExecEnv) (s : TradingState)
    (ctx : TradeContext) : ExecResult :=
  if cfg.dry_run then
    { ok := true, saved := true,
      state := simulate_fill cfg e.now s "buy" ctx.sizing.btc_to_buy
        ctx.current_price }
  else if ¬ e.order.success then
    { ok := false, state := s, saved := false }
  else
    match wait_for_fill e.queries 10 0 with
    | none => { ok := false, state := s, saved := false }
    | some fill =>
      { ok := true, saved := true,
        state := { s with
          entry_price := some fill.avg_price,
          btc_amount := fill.volume,
          mode := TradingMode.LONG,
          trades_today := s.trades_today + 1,
          last_trade_time := some e.now,
          entry_time := some e.now,
          partial_take_profit_done := false,
          trailing_stop_price :=
            if cfg.trailing_stop_pct > 0 then
              some (fill.avg_price * (1 - cfg.trailing_stop_pct))
            else none } }

/-- `Strategy::execute_sell`: sells `ctx.sell_volume` when positive (the
partial-exit volume) and the whole held amount otherwise, clamped to the
held amount; mutates + saves state only on a confirmed fill, staying LONG
exactly on a partial exit that leaves a residual position. -/
def execute_sell (cfg : Config) (e : ExecEnv) (s : TradingState)
    (ctx : TradeContext) : ExecResult :=
  let current_btc := if cfg.dry_run then s.sim_btc_balance else s.btc_amount
  let btc_to_sell0 := if ctx.sell_volume > 0 then ctx.sell_volume else current_btc
  if btc_to_sell0 ≤ 0 then { ok := false, state := s, saved := false }
  else
    let btc_to_sell := if btc_to_sell0 > current_btc then current_btc else btc_to_sell0
    if cfg.dry_run then
      { ok := true, saved := true,
        state := simulate_fill cfg e.now s "sell" btc_to_sell ctx.current_price }
    else if ¬ e.order.success then
      { ok := false, state := s, saved := false }
    else
      match wait_for_fill e.queries 10 0 with
      | none => { ok := false, state := s, saved := false }
      | some fill =>
        let s1 := { s with
          exit_price := some fill.avg_price,
          btc_amount := max 0 (s.btc_amount - fill.volume) }
        let s2 :=
          if ctx.partialExitFlag = true ∧ s1.btc_amount > (0 : ℚ) then
            { s1 with
              partial_take_profit_done := true,
              mode := TradingMode.LONG }
          else
            { s1 with
              mode := TradingMode.FLAT,
              entry_time := none,
              trailing_stop_price := none }
        { ok := true, saved := true,
          state := { s2 with
            trades_today := s2.trades_today + 1,
            last_trade_time := some e.now } }

/-- `Strategy::execute`: dispatch on the decision; NOOP/BLOCKED do nothing. -/
def execute (cfg : Config) (e : ExecEnv) (s : TradingState)
    (ctx : TradeContext) : ExecResult :=
  match ctx.decision with
  | Decision.BUY => execute_buy cfg e s ctx
  | Decision.SELL => execute_sell cfg e s ctx
  | _ => { ok := true, state := s, saved := false }

/-- One iteration of the main loop (main.cpp): `evaluate`, then execute the
decision when it is BUY or SELL. -/
def cycle (cfg : Config) (env : EvalEnv) (e : ExecEnv) (h : IndicatorHist)
    (s : TradingState) : TradingState × IndicatorHist × TradeContext × Bool :=
  let (s1, h1, ctx) := evaluate cfg env h s
  if ctx.decision = Decision.BUY ∨ ctx.decision = Decision.SELL then
    let r := execute cfg e s1 ctx
    (r.state, h1, ctx, r.ok)
  else (s1, h1, ctx, true)

/-! ## Exchange client session state (KrakenClient, strategy.cpp part 2) -/

/-- The mutable backoff/failure state owned by `KrakenClient`. -/
structure ClientState where
  consecutive_failures : ℕ := 0
  current_backoff_ms : ℕ := 0

deriving instance DecidableEq for ClientState

/-- `KrakenClient::apply_backoff`: bump the failure counter, start or
double-with-cap the backoff, then add the sampled jitter
(`util::random_jitter_ms(current_backoff_ms_ / 2)`, uniform on
`[0, base / 2]`; the sample is passed in as `jitter`). -/
def apply_backoff (initial_backoff_ms max_backoff_ms jitter : ℕ)
    (st : ClientState) : ClientState :=
  let base :=
    if st.current_backoff_ms = 0 then initial_backoff_ms
    else min (st.current_backoff_ms * 2) max_backoff_ms
  { consecutive_failures := st.consecutive_failures + 1,
    current_backoff_ms := base + jitter }

/-- The backoff base value chosen by `apply_backoff` before jitter. -/
def backoff_base (initial_backoff_ms max_backoff_ms : ℕ)
    (st : ClientState) : ℕ :=
  if st.current_backoff_ms = 0 then initial_backoff_ms
  else min (st.current_backoff_ms * 2) max_backoff_ms

/-- The success path of `KrakenClient::http_get`/`http_post`: reset both the
failure counter and the backoff. -/
def reset_backoff (_st : ClientState) : ClientState :=
  { consecutive_failures := 0, current_backoff_ms := 0 }

/-- The client-state effect of one `http_get` request: `apply_backoff` on
any failure (curl error or non-200 status), full reset on success. -/
def http_request_step (initial_backoff_ms max_backoff_ms : ℕ) (success : Bool)
    (jitter : ℕ) (st : ClientState) : ClientState :=
  if success then reset_backoff st
  else apply_backoff initial_backoff_ms max_backoff_ms jitter st

/-- `KrakenClient::enforce_rate_limit` total delay:
`min_delay_ms_ + current_backoff_ms_`. -/
def effective_delay (min_delay_ms : ℕ) (st : ClientState) : ℕ :=
  min_delay_ms + st.current_backoff_ms

/-! ## State persistence (TradingState::load, state.cpp) -/

/-- A parsed JSON document (the subset of nlohmann::json shapes the state
file can hold). -/
inductive Json where
  | null
  | bool (b : Bool)
  | num (q : ℚ)
  | str (s : String)
  | arr (elts : List Json)
  | obj (fields : List (String × Json))

/-- `j.contains(key)` / `j[key]` for objects: first binding wins. -/
def Json.find : Json → String → Option Json
  | .obj fields, key => fields.lookup key
  | _, _ => none

/-- `is_null()`. -/
def Json.isNull : Json → Bool
  | .null => true
  | _ => false

/-- `get<double>()`: nlohmann throws a `type_error` on any non-number. -/
def Json.getNum : Json → Except String ℚ
  | .num q => .ok q
  | _ => .error "type must be number"

/-- C++ `static_cast` of a double to an integer type truncates toward zero
(this is what `get<int>` / `get<int64_t>` do on a non-integral JSON
number). -/
def ratTruncInt (q : ℚ) : ℤ :=
  if 0 ≤ q then q.floor else -((-q).floor)

/-- `string_to_mode` (state.cpp): unknown strings default to FLAT with a
warning. -/
def string_to_mode (s : String) : TradingMode :=
  if s = "FLAT" then TradingMode.FLAT
  else if s = "LONG" then TradingMode.LONG
  else TradingMode.FLAT

/-- `TradingState::default_state` (state.cpp). -/
def default_state (today : String) : TradingState :=
  { mode := TradingMode.FLAT,
    entry_price := none,
    exit_price := none,
    trailing_stop_price := none,
    btc_amount := 0,
    last_trade_time := none,
    entry_time := none,
    trades_today := 0,
    trades_date_yyyy_mm_dd := today,
    partial_take_profit_done := false,
    sim_cad_balance := 0,
    sim_btc_balance := 0 }

/-- How far `TradingState::load` got with the state file before touching
JSON fields: the file may be absent, unopenable, unparseable, or parsed. -/
inductive FileRead where
  | missing
  | unopenable
  | parseFailure
  | parsed (j : Json)

/-- The `entry_price`/`exit_price` extraction step of `TradingState::load`:
the C++ guards these two fields only with `!is_null()` before calling
`get<double>()`, so a present non-null non-number throws (propagates as
`Except.error`). -/
def load_price_field (v? : Option Json) (st : TradingState)
    (upd : TradingState → ℚ → TradingState) : Except String TradingState :=
  match v? with
  | some v =>
    if v.isNull then pure st
    else do
      let q ← v.getNum
      pure (upd st q)
  | none => pure st

/-- The tail of `TradingState::load` after the two throwing price fields:
the remaining fields are all guarded by `is_number()`/`is_string()` and
silently skipped on a type mismatch, so this part is pure. -/
def load_rest (j : Json) (isoParse : String → ℤ) (st : TradingState) :
    TradingState :=
  let st := match j.find "btc_amount" with
    | some (.num q) => { st with btc_amount := q }
    | _ => st
  let st := match j.find "last_trade_time" with
    | some (.num q) => { st with last_trade_time := some (ratTruncInt q) }
    | some (.str s) => { st with last_trade_time := some (isoParse s) }
    | _ => st
  let st := match j.find "trades_today" with
    | some (.num q) => { st with trades_today := ratTruncInt q }
    | _ => st
  let st := match j.find "trades_date_yyyy_mm_dd" with
    | some (.str s) => { st with trades_date_yyyy_mm_dd := s }
    | _ => st
  let st := match j.find "sim_cad_balance" with
    | some (.num q) => { st with sim_cad_balance := q }
    | _ => st
  let st := match j.find "sim_btc_balance" with
    | some (.num q) => { st with sim_btc_balance := q }
    | _ => st
  st

/-- `TradingState::load` (state.cpp).  A missing/unopenable/unparseable file
yields the default state.  Field extraction mirrors the C++ guards exactly:
`entry_price` and `exit_price` are guarded only by `!is_null` before
`get<double>()`, so a present non-null non-number there raises an uncaught
`type_error`, modelled as `Except.error`; every other field is guarded by
`is_number()`/`is_string()` and silently skipped on a type mismatch.
`isoParse` stands for `util::iso8601_to_epoch`. -/
def TradingState.load (fr : FileRead) (isoParse : String → ℤ) (today : String) :
    Except String TradingState :=
  match fr with
  | .missing => .ok (default_state today)
  | .unopenable => .ok (default_state today)
  | .parseFailure => .ok (default_state today)
  | .parsed j => do
    let st := default_state today
    let st := match j.find "mode" with
      | some (.str s) => { st with mode := string_to_mode s }
      | _ => st
    let st ← load_price_field (j.find "entry_price") st
      (fun st q => { st with entry_price := some q })
    let st ← load_price_field (j.find "exit_price") st
      (fun st q => { st with exit_price := some q })
    pure (load_rest j isoParse st)

/-! ## Concrete fixtures used by the worked examples and witnesses -/

/-- The README's default configuration, restricted to the embedded fields
(dry-run paper trading, fixed TP/SL, trailing stop enabled). -/
def exampleCfg : Config :=
  { take_profit_pct := 15/1000,
    stop_loss_pct := 6/1000,
    rebuy_reset_pct := 6/1000,
    trend_window_short := 2,
    trend_window_long := 3,
    require_trend_up := false,
    atr_window := 2,
    min_atr_pct := 0,
    max_spread_pct := 2/1000,
    risk_per_trade_pct := 1/100,
    max_position_pct := 9/10,
    min_cad_required_pct := 2/100,
    partial_tp_pct := 0,
    partial_tp_sell_pct := 1/2,
    trailing_stop_pct := 4/1000,
    max_hold_seconds := 0,
    use_dynamic_tp_sl := false,
    tp_atr_mult := 2,
    sl_atr_mult := 12/10,
    cooldown_seconds := 600,
    max_trades_per_day := 3,
    dry_run := true,
    sim_fee_pct_roundtrip := 4/1000,
    max_consecutive_failures := 10,
    stale_price_seconds := 30 }

/-- A FLAT state with 1000 CAD of simulated equity. -/
def exampleStateFlat : TradingState :=
  { default_state "2026-01-01" with sim_cad_balance := 1000 }

/-- A quiet environment: no ticker/balance data needed, no failures. -/
def exampleEnv : EvalEnv :=
  { ticker := {}, balance := {}, now := 0, today := "2026-01-01",
    consecutive_failures := 0 }

/-! ## String helper -/

/-- Appending to a nonempty string stays nonempty (used for the block and
decision reasons, which always start with a nonempty literal). -/
theorem append_left_ne_empty (s t : String) (h : s ≠ "") : s ++ t ≠ "" := by
  cases s with
  | mk ds =>
    cases t with
    | mk dt =>
      cases ds with
      | nil => exact absurd rfl h
      | cons c cs =>
        intro hc
        have hdata : (String.mk (c :: cs) ++ String.mk dt).data = [] := by
          rw [hc]
        simp [String.append] at hdata

/-- Case shape of `calculate_sizing`: either the live balance fetch failed
(only `can_trade`/`block_reason` are set), or the sizing is
`sizing_from_balances` at the computed equity and available balance. -/
theorem calculate_sizing_shape (cfg : Config) (s : TradingState) (env : EvalEnv)
    (ctx : TradeContext) :
    calculate_sizing cfg s env ctx =
      { ctx with sizing :=
        { ctx.sizing with
          can_trade := false,
          block_reason := "Balance fetch failed: " ++ env.balance.error } } ∨
    ∃ equity available, calculate_sizing cfg s env ctx =
      { ctx with sizing := sizing_from_balances cfg ctx.current_price equity available } := by
  unfold calculate_sizing
  by_cases hd : cfg.dry_run = true
  · by_cases hm : s.mode = TradingMode.FLAT
    · right
      refine ⟨s.sim_cad_balance, s.sim_cad_balance, ?_⟩
      simp [hd, hm]
    · right
      refine ⟨s.sim_cad_balance + s.sim_btc_balance * ctx.current_price,
        s.sim_cad_balance, ?_⟩
      simp [hd, hm]
  · by_cases hb : env.balance.success = true
    · right
      refine ⟨env.balance.cad_balance + env.balance.btc_balance * ctx.current_price,
        env.balance.cad_balance, ?_⟩
      simp [hd, hb]
    · left
      simp [hd, hb]

/-! ## C3 -/

/-- C3: for every equity and valid percentages with a positive
`stop_loss_pct`, `calculate_sizing` computes
`risk_cad = equity * risk_per_trade_pct`,
`raw_position_cad = risk_cad / stop_loss_pct`,
`max_position_cad = equity * max_position_pct` and
`position_cad = min raw max`, hence `position_cad ≤ max_position_cad` and
`position_cad ≤ raw_position_cad`; and on the worked example
(equity 1000, risk 1%, stop-loss 0.6%, max position 90%) it yields
risk 10, raw position 5000/3 (≈ 1666.67), max position 900 and
position 900. -/
theorem c3_sizing_formulas (cfg : Config) (s : TradingState) (env : EvalEnv)
    (ctx : TradeContext) (hctx : ctx.sizing = {})
    (hsl : 0 < cfg.stop_loss_pct) :
    ((calculate_sizing cfg s env ctx).sizing.risk_cad =
        (calculate_sizing cfg s env ctx).sizing.equity_cad * cfg.risk_per_trade_pct ∧
      (calculate_sizing cfg s env ctx).sizing.raw_position_cad =
        (calculate_sizing cfg s env ctx).sizing.risk_cad / cfg.stop_loss_pct ∧
      (calculate_sizing cfg s env ctx).sizing.max_position_cad =
        (calculate_sizing cfg s env ctx).sizing.equity_cad * cfg.max_position_pct ∧
      (calculate_sizing cfg s env ctx).sizing.position_cad =
        min (calculate_sizing cfg s env ctx).sizing.raw_position_cad
          (calculate_sizing cfg s env ctx).sizing.max_position_cad ∧
      (calculate_sizing cfg s env ctx).sizing.position_cad ≤
        (calculate_sizing cfg s env ctx).sizing.max_position_cad ∧
      (calculate_sizing cfg s env ctx).sizing.position_cad ≤
        (calculate_sizing cfg s env ctx).sizing.raw_position_cad) ∧
    ((calculate_sizing exampleCfg exampleStateFlat exampleEnv {}).sizing.risk_cad = 10 ∧
      (calculate_sizing exampleCfg exampleStateFlat exampleEnv {}).sizing.raw_position_cad = 5000/3 ∧
      (calculate_sizing exampleCfg exampleStateFlat exampleEnv {}).sizing.max_position_cad = 900 ∧
      (calculate_sizing exampleCfg exampleStateFlat exampleEnv {}).sizing.position_cad = 900) := by
  constructor
  · rcases calculate_sizing_shape cfg s env ctx with h | ⟨equity, available, h⟩
    · rw [h, hctx]
      refine ⟨?_, ?_, ?_, ?_, ?_, ?_⟩ <;> simp
    · rw [h]
      refine ⟨?_, ?_, ?_, ?_, ?_, ?_⟩ <;>
        simp only [sizing_from_balances, if_pos hsl] <;>
        first
          | rfl
          | exact min_le_right _ _
          | exact min_le_left _ _
  · refine ⟨?_, ?_, ?_, ?_⟩ <;>
      norm_num [calculate_sizing, sizing_from_balances, exampleCfg,
        exampleStateFlat, exampleEnv, default_state]

/-- Closed witness for C3 at the worked example's inputs. -/
theorem c3_sizing_formulas_witness :
    ({} : PositionSizing) = {} ∧ (0 : ℚ) < exampleCfg.stop_loss_pct ∧
    (calculate_sizing exampleCfg exampleStateFlat exampleEnv {}).sizing.position_cad ≤
      (calculate_sizing exampleCfg exampleStateFlat exampleEnv {}).sizing.max_position_cad :=
  ⟨rfl, by norm_num [exampleCfg],
    ((c3_sizing_formulas exampleCfg exampleStateFlat exampleEnv {} rfl
      (by norm_num [exampleCfg])).1.2.2.2.2).1⟩

/-! ## C4 -/

/-- C4: with `stop_loss_pct = 0` the sizing never divides by
`stop_loss_pct` (the guarded branch sets `raw_position_cad = 0`), the
verdict is `can_trade = false` with a nonempty block reason, and — for the
realizable inputs with nonnegative equity and `max_position_pct` — the
position size is 0.  Over `ℚ` every value produced is a finite rational,
the model's rendering of "never NaN or Inf". -/
theorem c4_zero_stop_loss (cfg : Config) (s : TradingState) (env : EvalEnv)
    (ctx : TradeContext) (hctx : ctx.sizing = {}) (hsl : cfg.stop_loss_pct = 0) :
    (calculate_sizing cfg s env ctx).sizing.raw_position_cad = 0 ∧
    (calculate_sizing cfg s env ctx).sizing.can_trade = false ∧
    (calculate_sizing cfg s env ctx).sizing.block_reason ≠ "" ∧
    (0 ≤ (calculate_sizing cfg s env ctx).sizing.equity_cad →
      0 ≤ cfg.max_position_pct →
      (calculate_sizing cfg s env ctx).sizing.position_cad = 0) := by
  rcases calculate_sizing_shape cfg s env ctx with h | ⟨equity, available, h⟩
  · rw [h, hctx]
    refine ⟨by simp, by simp, ?_, by simp⟩
    exact append_left_ne_empty _ _ (by decide)
  · rw [h]
    have hraw : (sizing_from_balances cfg ctx.current_price equity available).raw_position_cad = 0 := by
      simp only [sizing_from_balances]
      rw [hsl]
      simp
    have hposle : min ((0:ℚ)) (equity * cfg.max_position_pct) < 1 :=
      lt_of_le_of_lt (min_le_left _ _) one_pos
    have hpos : (sizing_from_balances cfg ctx.current_price equity available).position_cad =
        min 0 (equity * cfg.max_position_pct) := by
      simp only [sizing_from_balances]
      rw [hsl]
      simp
    refine ⟨hraw, ?_, ?_, ?_⟩
    · simp only [sizing_from_balances]
      rw [hsl]
      by_cases hc1 : available < min ((equity * cfg.risk_per_trade_pct) / (0:ℚ)) (equity * cfg.max_position_pct) + max 1 (equity * cfg.min_cad_required_pct)
      · simp [hc1]
      · simp only [gt_iff_lt, lt_irrefl, if_false]
        rw [if_neg (by simpa using hc1)]
        rw [if_pos (by simpa using hposle)]
    · simp only [sizing_from_balances]
      by_cases hc1 : available < (sizing_from_balances cfg ctx.current_price equity available).position_cad + max 1 (equity * cfg.min_cad_required_pct)
      all_goals
        simp only [sizing_from_balances] at hc1
        rw [hsl] at hc1 ⊢
        simp only [gt_iff_lt, lt_irrefl, if_false] at hc1 ⊢
      · rw [if_pos hc1]
        exact append_left_ne_empty _ _ (append_left_ne_empty _ _ (append_left_ne_empty _ _ (by decide)))
      · rw [if_neg hc1, if_pos (by simpa using hposle)]
        exact append_left_ne_empty _ _
          (append_left_ne_empty "Position size too small: " _ (by decide))
    · intro hequity _hmp
      rw [hpos]
      have : 0 ≤ equity * cfg.max_position_pct := by
        have he : (sizing_from_balances cfg ctx.current_price equity available).equity_cad = equity := rfl
        rw [he] at hequity
        exact mul_nonneg hequity _hmp
      simpa using min_eq_left this

/-- Closed witness for C4: the README configuration with `stop_loss_pct`
zeroed out is not tradeable. -/
theorem c4_zero_stop_loss_witness :
    ({} : PositionSizing) = {} ∧
    ({ exampleCfg with stop_loss_pct := 0 } : Config).stop_loss_pct = 0 ∧
    (calculate_sizing { exampleCfg with stop_loss_pct := 0 } exampleStateFlat
      exampleEnv {}).sizing.can_trade = false :=
  ⟨rfl, rfl,
    (c4_zero_stop_loss { exampleCfg with stop_loss_pct := 0 } exampleStateFlat
      exampleEnv {} rfl rfl).2.1⟩

/-! ## Helper lemmas about the evaluation pipeline -/

/-- `check_date_rollover` only touches `trades_today` and the stored date. -/
theorem check_date_rollover_mode (today : String) (s : TradingState) :
    (check_date_rollover today s).mode = s.mode := by
  unfold check_date_rollover
  split <;> rfl

/-- `check_date_rollover` preserves `entry_price`. -/
theorem check_date_rollover_entry (today : String) (s : TradingState) :
    (check_date_rollover today s).entry_price = s.entry_price := by
  unfold check_date_rollover
  split <;> rfl

/-- `check_date_rollover` preserves `exit_price`. -/
theorem check_date_rollover_exit (today : String) (s : TradingState) :
    (check_date_rollover today s).exit_price = s.exit_price := by
  unfold check_date_rollover
  split <;> rfl

/-- `check_date_rollover` preserves `trailing_stop_price`. -/
theorem check_date_rollover_trailing (today : String) (s : TradingState) :
    (check_date_rollover today s).trailing_stop_price = s.trailing_stop_price := by
  unfold check_date_rollover
  split <;> rfl

/-- A failing `fetch_price` always reports BLOCKED. -/
theorem fetch_price_false_decision (cfg : Config) (env : EvalEnv)
    (ctx : TradeContext) (hfail : (fetch_price cfg env ctx).2 = false) :
    (fetch_price cfg env ctx).1.decision = Decision.BLOCKED := by
  by_cases ht : env.ticker.success = true
  · by_cases hstale : cfg.stale_price_seconds < env.now - env.ticker.timestamp
    · simp [fetch_price, ht, hstale]
    · simp [fetch_price, ht, hstale] at hfail
  · simp [fetch_price, ht]

/-- A triggered blocking condition always reports BLOCKED. -/
theorem check_blocking_true_decision (cfg : Config) (s : TradingState)
    (env : EvalEnv) (ctx : TradeContext)
    (hblk : (check_blocking_conditions cfg s env ctx).2 = true) :
    (check_blocking_conditions cfg s env ctx).1.decision = Decision.BLOCKED := by
  by_cases h1 : is_in_cooldown s env.now cfg.cooldown_seconds = true
  · simp [check_blocking_conditions, h1]
  · by_cases h2 : cfg.max_trades_per_day ≤ s.trades_today
    · simp [check_blocking_conditions, h1, h2]
    · by_cases h3 : cfg.max_consecutive_failures ≤ env.consecutive_failures
      · simp [check_blocking_conditions, h1, h2, h3]
      · simp [check_blocking_conditions, h1, h2, h3] at hblk

/-- `check_exit_condition` with a missing entry price returns the
data-integrity reason, declines to exit, and leaves the state unchanged. -/
theorem check_exit_condition_no_entry (cfg : Config) (env : EvalEnv)
    (s : TradingState) (ctx : TradeContext) (h : s.entry_price = none) :
    check_exit_condition cfg env s ctx =
      (s, { ctx with
        decision_reason := "Error: missing entry price in LONG mode" },
       false) := by
  unfold check_exit_condition
  rw [h]

/-- Case analysis of one `evaluate` call: a blocked cycle (price fetch
failure, staleness, cooldown, caps, failure ceiling) leaves the rolled-over
state untouched and reports BLOCKED; otherwise `evaluate` runs exactly the
branch matching the current mode. -/
theorem evaluate_cases (cfg : Config) (env : EvalEnv) (h : IndicatorHist)
    (s : TradingState) :
    (∃ ctx, evaluate cfg env h s = (check_date_rollover env.today s, h, ctx) ∧
      ctx.decision = Decision.BLOCKED) ∨
    (∃ h1 ctx, evaluate cfg env h s =
        (check_date_rollover env.today s, h1, ctx) ∧
      ctx.decision = Decision.BLOCKED) ∨
    ((check_date_rollover env.today s).mode = TradingMode.FLAT ∧
      (fetch_price cfg env {}).2 = true ∧
      evaluate cfg env h s =
        evaluate_flat_branch cfg env (check_date_rollover env.today s)
          (update_indicators cfg h (fetch_price cfg env {}).1).1
          (check_blocking_conditions cfg (check_date_rollover env.today s) env
            (update_indicators cfg h (fetch_price cfg env {}).1).2).1) ∨
    ((check_date_rollover env.today s).mode = TradingMode.LONG ∧
      (fetch_price cfg env {}).2 = true ∧
      evaluate cfg env h s =
        evaluate_long_branch cfg env (check_date_rollover env.today s)
          (update_indicators cfg h (fetch_price cfg env {}).1).1
          (check_blocking_conditions cfg (check_date_rollover env.today s) env
            (update_indicators cfg h (fetch_price cfg env {}).1).2).1) := by
  rcases hp : fetch_price cfg env {} with ⟨ctx1, fetched⟩
  rcases hq : update_indicators cfg h ctx1 with ⟨h1, ctx2⟩
  rcases hr : check_blocking_conditions cfg (check_date_rollover env.today s)
      env ctx2 with ⟨ctx3, blocked⟩
  simp only [evaluate, hp, hq, hr]
  rcases fetched with _ | _
  · left
    refine ⟨ctx1, by simp, ?_⟩
    have hd := fetch_price_false_decision cfg env {} (by rw [hp])
    rw [hp] at hd
    exact hd
  · rcases blocked with _ | _
    · rcases hmode : (check_date_rollover env.today s).mode with _ | _
      · right; right; left
        refine ⟨rfl, rfl, ?_⟩
        simp [hmode]
      · right; right; right
        refine ⟨rfl, rfl, ?_⟩
        simp [hmode]
    · right; left
      refine ⟨h1, ctx3, by simp, ?_⟩
      have hd := check_blocking_true_decision cfg
        (check_date_rollover env.today s) env ctx2 (by rw [hr])
      rw [hr] at hd
      exact hd

/-- The LONG branch with a missing entry price yields NOOP with the
data-integrity reason and the untouched state. -/
theorem evaluate_long_branch_no_entry (cfg : Config) (env : EvalEnv)
    (s : TradingState) (h : IndicatorHist) (ctx : TradeContext)
    (hentry : s.entry_price = none) :
    evaluate_long_branch cfg env s h ctx =
      (s, h, { ctx with
        decision := Decision.NOOP,
        decision_reason := "Error: missing entry price in LONG mode" }) := by
  unfold evaluate_long_branch
  rw [hentry]
  dsimp only
  rw [check_exit_condition_no_entry cfg env s ctx hentry]
  rfl

/-- A successful `fetch_price` installs the ticker's last price as the
context's current price. -/
theorem fetch_price_true_price (cfg : Config) (env : EvalEnv)
    (ctx : TradeContext) (hok : (fetch_price cfg env ctx).2 = true) :
    (fetch_price cfg env ctx).1.current_price = env.ticker.last_price := by
  by_cases ht : env.ticker.success = true
  · by_cases hstale : cfg.stale_price_seconds < env.now - env.ticker.timestamp
    · simp [fetch_price, ht, hstale] at hok
    · simp [fetch_price, ht, hstale]
  · simp [fetch_price, ht] at hok

/-- `update_indicators` never changes the current price. -/
theorem update_indicators_price (cfg : Config) (h : IndicatorHist)
    (ctx : TradeContext) :
    (update_indicators cfg h ctx).2.current_price = ctx.current_price := by
  simp only [update_indicators]
  split
  · rfl
  · rfl

/-- `check_blocking_conditions` never changes the current price. -/
theorem check_blocking_price (cfg : Config) (s : TradingState) (env : EvalEnv)
    (ctx : TradeContext) :
    (check_blocking_conditions cfg s env ctx).1.current_price =
      ctx.current_price := by
  simp only [check_blocking_conditions]
  repeat' split
  all_goals rfl

/-- `calculate_sizing` never changes the current price. -/
theorem calculate_sizing_price (cfg : Config) (s : TradingState)
    (env : EvalEnv) (ctx : TradeContext) :
    (calculate_sizing cfg s env ctx).current_price = ctx.current_price := by
  rcases calculate_sizing_shape cfg s env ctx with h | ⟨equity, available, h⟩ <;>
    rw [h]

/-- `calculate_sizing` never changes the recorded exit price context; more
precisely it only replaces the `sizing` member. -/
theorem calculate_sizing_only_sizing (cfg : Config) (s : TradingState)
    (env : EvalEnv) (ctx : TradeContext) :
    ∃ ps, calculate_sizing cfg s env ctx = { ctx with sizing := ps } := by
  rcases calculate_sizing_shape cfg s env ctx with h | ⟨equity, available, h⟩
  · exact ⟨_, h⟩
  · exact ⟨_, h⟩

/-- A passing `check_market_conditions` returns the context unchanged. -/
theorem check_market_false_id (cfg : Config) (ctx : TradeContext)
    (hpass : (check_market_conditions cfg ctx).2 = false) :
    (check_market_conditions cfg ctx).1 = ctx := by
  by_cases h1 : cfg.max_spread_pct > 0 ∧ ctx.spread_pct > cfg.max_spread_pct
  · simp [check_market_conditions, h1] at hpass
  · by_cases h2 : passes_volatility_filter cfg ctx = true
    · by_cases h3 : passes_trend_filter cfg ctx = true
      · simp [check_market_conditions, h1, h2, h3]
      · simp [check_market_conditions, h1, h2, h3] at hpass
    · simp [check_market_conditions, h1, h2] at hpass

/-- A failing market gate reports BLOCKED. -/
theorem check_market_true_decision (cfg : Config) (ctx : TradeContext)
    (hblk : (check_market_conditions cfg ctx).2 = true) :
    (check_market_conditions cfg ctx).1.decision = Decision.BLOCKED := by
  by_cases h1 : cfg.max_spread_pct > 0 ∧ ctx.spread_pct > cfg.max_spread_pct
  · simp [check_market_conditions, h1]
  · by_cases h2 : passes_volatility_filter cfg ctx = true
    · by_cases h3 : passes_trend_filter cfg ctx = true
      · simp [check_market_conditions, h1, h2, h3] at hblk
      · simp [check_market_conditions, h1, h2, h3]
    · simp [check_market_conditions, h1, h2]

/-- The entry check succeeds exactly on a first-ever trade or on a price at
or below the rebuy-reset level. -/
theorem check_entry_true_iff (cfg : Config) (s : TradingState)
    (ctx : TradeContext) :
    (check_entry_condition cfg s ctx).2 = true ↔
      (s.exit_price = none ∨ ∃ e, s.exit_price = some e ∧
        ctx.current_price ≤ e * (1 - cfg.rebuy_reset_pct)) := by
  rcases hx : s.exit_price with _ | e
  · simp [check_entry_condition, hx]
  · by_cases hle : ctx.current_price ≤ e * (1 - cfg.rebuy_reset_pct)
    · simp [check_entry_condition, hx, hle]
    · simp [check_entry_condition, hx, hle]

/-- String concatenation is associative (via the underlying character
lists). -/
theorem string_append_assoc (a b c : String) : a ++ b ++ c = a ++ (b ++ c) := by
  cases a with
  | mk x =>
    cases b with
    | mk y =>
      cases c with
      | mk z => exact congrArg String.mk (List.append_assoc x y z)

/-- A failed entry check leaves the waiting-for-price-reset reason. -/
theorem check_entry_false_reason (cfg : Config) (s : TradingState)
    (ctx : TradeContext)
    (hno : (check_entry_condition cfg s ctx).2 = false) :
    ∃ t, (check_entry_condition cfg s ctx).1.decision_reason =
      "Waiting for price reset: current=" ++ t := by
  rcases hx : s.exit_price with _ | e
  · simp [check_entry_condition, hx] at hno
  · by_cases hle : ctx.current_price ≤ e * (1 - cfg.rebuy_reset_pct)
    · simp [check_entry_condition, hx, hle] at hno
    · refine ⟨toString ctx.current_price ++
        (", rebuy_price=" ++ toString (e * (1 - cfg.rebuy_reset_pct))), ?_⟩
      simp only [check_entry_condition, hx, if_neg hle]
      rw [string_append_assoc, string_append_assoc]

/-! ## C7 -/

/-- C7: whenever `mode = LONG` and `entry_price` is absent, `evaluate`
never decides BUY or SELL: either an earlier blocking condition yields
BLOCKED, or the exit check reports the data-integrity error and the
decision degrades to NOOP with that error as the reason. -/
theorem c7_missing_entry_noop (cfg : Config) (env : EvalEnv)
    (h : IndicatorHist) (s : TradingState)
    (hmode : s.mode = TradingMode.LONG) (hentry : s.entry_price = none) :
    (evaluate cfg env h s).2.2.decision = Decision.BLOCKED ∨
    ((evaluate cfg env h s).2.2.decision = Decision.NOOP ∧
      (evaluate cfg env h s).2.2.decision_reason =
        "Error: missing entry price in LONG mode") := by
  have he : (check_date_rollover env.today s).entry_price = none :=
    (check_date_rollover_entry env.today s).trans hentry
  rcases evaluate_cases cfg env h s with
    ⟨ctx, heq, hdec⟩ | ⟨h1, ctx, heq, hdec⟩ | ⟨hflat, _, heq⟩ | ⟨_, _, heq⟩
  · left; rw [heq]; exact hdec
  · left; rw [heq]; exact hdec
  · rw [check_date_rollover_mode env.today s, hmode] at hflat
    exact absurd hflat (by decide)
  · right
    rw [heq, evaluate_long_branch_no_entry cfg env _ _ _ he]
    exact ⟨rfl, rfl⟩

/-- Closed witness for C7: a LONG state with no entry price and an
otherwise quiet environment evaluates without ever selling or buying. -/
theorem c7_missing_entry_noop_witness :
    ({ default_state "2026-01-01" with
        mode := TradingMode.LONG } : TradingState).mode = TradingMode.LONG ∧
    ({ default_state "2026-01-01" with
        mode := TradingMode.LONG } : TradingState).entry_price = none ∧
    ((evaluate exampleCfg exampleEnv {}
        { default_state "2026-01-01" with
          mode := TradingMode.LONG }).2.2.decision = Decision.BLOCKED ∨
      ((evaluate exampleCfg exampleEnv {}
          { default_state "2026-01-01" with
            mode := TradingMode.LONG }).2.2.decision = Decision.NOOP ∧
        (evaluate exampleCfg exampleEnv {}
          { default_state "2026-01-01" with
            mode := TradingMode.LONG }).2.2.decision_reason =
          "Error: missing entry price in LONG mode")) :=
  ⟨rfl, rfl,
    c7_missing_entry_noop exampleCfg exampleEnv {}
      { default_state "2026-01-01" with mode := TradingMode.LONG } rfl rfl⟩

/-- The FLAT branch decides BUY or NOOP only through the entry check: BUY
exactly when there is no recorded exit or the price is at or below the
rebuy-reset level, NOOP (with the waiting reason) otherwise. -/
theorem evaluate_flat_branch_decision (cfg : Config) (env : EvalEnv)
    (s : TradingState) (h : IndicatorHist) (ctx : TradeContext) :
    ((evaluate_flat_branch cfg env s h ctx).2.2.decision = Decision.BUY ∨
      (evaluate_flat_branch cfg env s h ctx).2.2.decision = Decision.NOOP) →
    ((evaluate_flat_branch cfg env s h ctx).2.2.decision = Decision.BUY ↔
      (s.exit_price = none ∨ ∃ e, s.exit_price = some e ∧
        ctx.current_price ≤ e * (1 - cfg.rebuy_reset_pct))) ∧
    ((evaluate_flat_branch cfg env s h ctx).2.2.decision = Decision.NOOP →
      ∃ t, (evaluate_flat_branch cfg env s h ctx).2.2.decision_reason =
        "Waiting for price reset: current=" ++ t) := by
  by_cases hct : (calculate_sizing cfg s env ctx).sizing.can_trade = true
  · rcases hm : check_market_conditions cfg (calculate_sizing cfg s env ctx)
      with ⟨ctxm, mblocked⟩
    rcases mblocked with _ | _
    · have hid : ctxm = calculate_sizing cfg s env ctx := by
        have hpass := check_market_false_id cfg (calculate_sizing cfg s env ctx)
          (by rw [hm])
        rw [hm] at hpass
        exact hpass
      subst hid
      rcases he : check_entry_condition cfg s (calculate_sizing cfg s env ctx)
        with ⟨ctxe, enter⟩
      have hiff := check_entry_true_iff cfg s (calculate_sizing cfg s env ctx)
      rw [he, calculate_sizing_price cfg s env ctx] at hiff
      rcases enter with _ | _
      · have hres : evaluate_flat_branch cfg env s h ctx =
            (s, h, { ctxe with decision := Decision.NOOP }) := by
          simp only [evaluate_flat_branch]
          rw [if_neg (by simp [hct]), hm]
          dsimp only
          rw [he]
          rfl
        have hrsn := check_entry_false_reason cfg s (calculate_sizing cfg s env ctx)
          (by rw [he])
        rw [he] at hrsn
        rw [hres]
        intro _
        constructor
        · constructor
          · intro hc
            exact absurd hc (by simp)
          · intro hr
            have hfalse : false = true := hiff.2 hr
            cases hfalse
        · intro _
          exact hrsn
      · have hres : evaluate_flat_branch cfg env s h ctx =
            (s, h, { ctxe with decision := Decision.BUY }) := by
          simp only [evaluate_flat_branch]
          rw [if_neg (by simp [hct]), hm]
          dsimp only
          rw [he]
          rfl
        rw [hres]
        intro _
        constructor
        · exact iff_of_true rfl (hiff.1 rfl)
        · intro hc
          exact absurd hc (by simp)
    · have hres : evaluate_flat_branch cfg env s h ctx = (s, h, ctxm) := by
        simp only [evaluate_flat_branch]
        rw [if_neg (by simp [hct]), hm]
        rfl
      have hd : ctxm.decision = Decision.BLOCKED := by
        have hd0 := check_market_true_decision cfg (calculate_sizing cfg s env ctx)
          (by rw [hm])
        rw [hm] at hd0
        exact hd0
      rw [hres]
      intro hpre
      rcases hpre with hc | hc <;> rw [show (s, h, ctxm).2.2 = ctxm from rfl, hd] at hc <;>
        exact absurd hc (by simp)
  · have hres : evaluate_flat_branch cfg env s h ctx =
        (s, h, { calculate_sizing cfg s env ctx with
          decision := Decision.BLOCKED,
          decision_reason := (calculate_sizing cfg s env ctx).sizing.block_reason }) := by
      simp only [evaluate_flat_branch]
      rw [if_pos (by simp [hct])]
    rw [hres]
    intro hpre
    rcases hpre with hc | hc <;> exact absurd hc (by simp)

/-- A FLAT state holding a previous exit at 85000 CAD, used in the C6
worked example. -/
def exampleStateExit : TradingState :=
  { exampleStateFlat with exit_price := some 85000 }

/-! ## C6 -/

/-- C6: on every FLAT evaluation that reaches the entry check (decision BUY
or NOOP), the decision is BUY iff there is no recorded exit price (first
trade, regardless of price) or the ticker price is at or below
`exit_price * (1 - rebuy_reset_pct)`; otherwise it is NOOP with a waiting
reason.  On the worked example (exit 85000, reset 0.6%): rebuy price is
84490, price 84700 does not enter, price 84480 does. -/
theorem c6_entry_rebuy (cfg : Config) (env : EvalEnv) (h : IndicatorHist)
    (s : TradingState) (hmode : s.mode = TradingMode.FLAT) :
    (((evaluate cfg env h s).2.2.decision = Decision.BUY ∨
        (evaluate cfg env h s).2.2.decision = Decision.NOOP) →
      (((evaluate cfg env h s).2.2.decision = Decision.BUY) ↔
        (s.exit_price = none ∨ ∃ e, s.exit_price = some e ∧
          env.ticker.last_price ≤ e * (1 - cfg.rebuy_reset_pct))) ∧
      ((evaluate cfg env h s).2.2.decision = Decision.NOOP →
        ∃ t, (evaluate cfg env h s).2.2.decision_reason =
          "Waiting for price reset: current=" ++ t)) ∧
    ((check_entry_condition exampleCfg exampleStateExit
        { current_price := 84700 }).2 = false ∧
      (check_entry_condition exampleCfg exampleStateExit
        { current_price := 84700 }).1.rebuy_price = 84490 ∧
      (check_entry_condition exampleCfg exampleStateExit
        { current_price := 84480 }).2 = true) := by
  constructor
  · rcases evaluate_cases cfg env h s with
      ⟨ctx, heq, hdec⟩ | ⟨h1, ctx, heq, hdec⟩ | ⟨_, hfok, heq⟩ | ⟨hlong, _, heq⟩
    · rw [heq]
      intro hpre
      rcases hpre with hc | hc <;> rw [hdec] at hc <;> exact absurd hc (by simp)
    · rw [heq]
      intro hpre
      rcases hpre with hc | hc <;> rw [hdec] at hc <;> exact absurd hc (by simp)
    · have hprice : (check_blocking_conditions cfg (check_date_rollover env.today s)
          env (update_indicators cfg h (fetch_price cfg env {}).1).2).1.current_price =
          env.ticker.last_price := by
        rw [check_blocking_price, update_indicators_price,
          fetch_price_true_price cfg env _ hfok]
      have hx := check_date_rollover_exit env.today s
      rw [heq]
      have hmain := evaluate_flat_branch_decision cfg env
        (check_date_rollover env.today s)
        (update_indicators cfg h (fetch_price cfg env {}).1).1
        (check_blocking_conditions cfg (check_date_rollover env.today s) env
          (update_indicators cfg h (fetch_price cfg env {}).1).2).1
      rw [hprice, hx] at hmain
      intro hpre
      exact hmain hpre
    · rw [check_date_rollover_mode env.today s, hmode] at hlong
      exact absurd hlong (by decide)
  · refine ⟨?_, ?_, ?_⟩ <;>
      norm_num [check_entry_condition, exampleStateExit, exampleStateFlat,
        exampleCfg, default_state]

/-- Closed witness for C6: the worked-example conjuncts at the concrete
FLAT state with exit price 85000. -/
theorem c6_entry_rebuy_witness :
    exampleStateExit.mode = TradingMode.FLAT ∧
    ((check_entry_condition exampleCfg exampleStateExit
        { current_price := 84700 }).2 = false ∧
      (check_entry_condition exampleCfg exampleStateExit
        { current_price := 84700 }).1.rebuy_price = 84490 ∧
      (check_entry_condition exampleCfg exampleStateExit
        { current_price := 84480 }).2 = true) :=
  ⟨rfl, (c6_entry_rebuy exampleCfg exampleEnv {} exampleStateExit rfl).2⟩

/-! ## State effects of the exit pipeline -/

/-- `check_exit_condition` either leaves the state untouched or only
ratchets the trailing stop upward. -/
theorem check_exit_condition_state (cfg : Config) (env : EvalEnv)
    (s : TradingState) (ctx : TradeContext) :
    (check_exit_condition cfg env s ctx).1 = s ∨
    ∃ b, (check_exit_condition cfg env s ctx).1 =
        { s with trailing_stop_price := some b } ∧
      ∀ t, s.trailing_stop_price = some t → t ≤ b := by
  unfold check_exit_condition
  rcases hent : s.entry_price with _ | entry
  · left
    rfl
  · dsimp only
    by_cases hpp : ¬ s.partial_take_profit_done = true ∧ cfg.partial_tp_pct > 0 ∧
        ctx.current_price ≥ entry * (1 + cfg.partial_tp_pct)
    · rw [if_pos hpp]
      left
      rfl
    · rw [if_neg hpp]
      by_cases htp : cfg.trailing_stop_pct > 0
      · rcases hts : s.trailing_stop_price with _ | t0
        · right
          refine ⟨ctx.current_price * (1 - cfg.trailing_stop_pct), ?_, ?_⟩
          · rw [if_pos htp]
            dsimp only
            simp only [apply_ite Prod.fst, ite_self]
          · intro t htt
            cases htt
        · by_cases hb : ctx.current_price * (1 - cfg.trailing_stop_pct) > t0
          · right
            refine ⟨ctx.current_price * (1 - cfg.trailing_stop_pct), ?_, ?_⟩
            · rw [if_pos htp]
              dsimp only
              rw [if_pos hb]
              simp only [apply_ite Prod.fst, ite_self]
            · intro t htt
              injection htt with h0
              exact h0 ▸ le_of_lt hb
          · left
            rw [if_pos htp]
            dsimp only
            rw [if_neg hb]
            simp only [apply_ite Prod.fst, ite_self]
      · left
        rw [if_neg htp]
        simp only [apply_ite Prod.fst, ite_self]

/-- The FLAT branch never mutates the durable state. -/
theorem evaluate_flat_branch_state (cfg : Config) (env : EvalEnv)
    (s : TradingState) (h : IndicatorHist) (ctx : TradeContext) :
    (evaluate_flat_branch cfg env s h ctx).1 = s := by
  unfold evaluate_flat_branch
  dsimp only
  split
  · rfl
  · rcases hm : check_market_conditions cfg (calculate_sizing cfg s env ctx)
      with ⟨ctxm, mb⟩
    rcases mb with _ | _
    · simp only [hm]
      rcases he : check_entry_condition cfg s ctxm with ⟨ctxe, enter⟩
      simp only [he]
      rcases enter with _ | _ <;> rfl
    · simp only [hm]
      rfl

/-- The LONG branch mutates the durable state only by ratcheting the
trailing stop upward. -/
theorem evaluate_long_branch_state (cfg : Config) (env : EvalEnv)
    (s : TradingState) (h : IndicatorHist) (ctx : TradeContext) :
    (evaluate_long_branch cfg env s h ctx).1 = s ∨
    ∃ b, (evaluate_long_branch cfg env s h ctx).1 =
        { s with trailing_stop_price := some b } ∧
      ∀ t, s.trailing_stop_price = some t → t ≤ b := by
  unfold evaluate_long_branch
  rcases hent : s.entry_price with _ | entry
  · dsimp only
    rw [check_exit_condition_no_entry cfg env s ctx hent]
    left
    rfl
  · dsimp only
    by_cases hdy : cfg.use_dynamic_tp_sl ∧ ctx.atr > 0
    · rw [if_pos hdy]
      rcases hce : check_exit_condition cfg env s
          { ctx with
            tp_price := entry + ctx.atr * cfg.tp_atr_mult,
            sl_price := entry - ctx.atr * cfg.sl_atr_mult }
        with ⟨s2, ctx2, flag⟩
      have hst := check_exit_condition_state cfg env s
        { ctx with
          tp_price := entry + ctx.atr * cfg.tp_atr_mult,
          sl_price := entry - ctx.atr * cfg.sl_atr_mult }
      rw [hce] at hst
      rw [hent] at hst
      simp only [hce]
      rcases flag with _ | _
      · rw [if_neg (by decide)]
        exact hst
      · rw [if_pos rfl]
        exact hst
    · rw [if_neg hdy]
      rcases hce : check_exit_condition cfg env s
          { ctx with
            tp_price := entry * (1 + cfg.take_profit_pct),
            sl_price := entry * (1 - cfg.stop_loss_pct) }
        with ⟨s2, ctx2, flag⟩
      have hst := check_exit_condition_state cfg env s
        { ctx with
          tp_price := entry * (1 + cfg.take_profit_pct),
          sl_price := entry * (1 - cfg.stop_loss_pct) }
      rw [hce] at hst
      rw [hent] at hst
      simp only [hce]
      rcases flag with _ | _
      · rw [if_neg (by decide)]
        exact hst
      · rw [if_pos rfl]
        exact hst

/-- A LONG state with an entry at 100 and a trailing stop already set at
99, used by the C5 witness. -/
def exampleStateLong : TradingState :=
  { default_state "2026-01-01" with
    mode := TradingMode.LONG,
    entry_price := some 100,
    trailing_stop_price := some 99,
    btc_amount := 1,
    sim_btc_balance := 1 }

/-! ## C5 -/

/-- C5: the stored trailing stop, once set, never decreases across an
`evaluate` cycle; whenever the exit check reaches the trailing-stop branch
(entry present, trailing enabled, partial take-profit not firing) it
replaces the stop by `max current (price * (1 - trailing_stop_pct))`, and
if the price is at or below that updated stop the check exits with a
full-position SELL (no partial-exit flag, no partial volume). -/
theorem c5_trailing_monotone (cfg : Config) (env : EvalEnv) (h : IndicatorHist)
    (s : TradingState) (t : ℚ) (ht : s.trailing_stop_price = some t) :
    (∃ t', (evaluate cfg env h s).1.trailing_stop_price = some t' ∧ t ≤ t') ∧
    (∀ ctx entry, s.entry_price = some entry →
      cfg.trailing_stop_pct > 0 →
      (cfg.partial_tp_pct ≤ 0 ∨ s.partial_take_profit_done = true) →
      (check_exit_condition cfg env s ctx).1.trailing_stop_price =
        some (max t (ctx.current_price * (1 - cfg.trailing_stop_pct))) ∧
      (ctx.current_price ≤ max t (ctx.current_price * (1 - cfg.trailing_stop_pct)) →
        (check_exit_condition cfg env s ctx).2.2 = true ∧
        (check_exit_condition cfg env s ctx).2.1.sell_volume = ctx.sell_volume ∧
        (check_exit_condition cfg env s ctx).2.1.partialExitFlag =
          ctx.partialExitFlag)) := by
  have hroll := check_date_rollover_trailing env.today s
  constructor
  · rcases evaluate_cases cfg env h s with
      ⟨ctx, heq, _⟩ | ⟨h1, ctx, heq, _⟩ | ⟨_, _, heq⟩ | ⟨_, _, heq⟩
    · rw [heq]
      refine ⟨t, ?_, le_rfl⟩
      show (check_date_rollover env.today s).trailing_stop_price = some t
      rw [hroll]
      exact ht
    · rw [heq]
      refine ⟨t, ?_, le_rfl⟩
      show (check_date_rollover env.today s).trailing_stop_price = some t
      rw [hroll]
      exact ht
    · rw [heq, evaluate_flat_branch_state]
      refine ⟨t, ?_, le_rfl⟩
      rw [hroll]
      exact ht
    · rw [heq]
      rcases evaluate_long_branch_state cfg env (check_date_rollover env.today s)
          (update_indicators cfg h (fetch_price cfg env {}).1).1
          (check_blocking_conditions cfg (check_date_rollover env.today s) env
            (update_indicators cfg h (fetch_price cfg env {}).1).2).1 with
        h0 | ⟨b, hb, hmono⟩
      · rw [h0, hroll]
        exact ⟨t, ht, le_rfl⟩
      · refine ⟨b, ?_, ?_⟩
        · rw [hb]
        · exact hmono t (by rw [hroll]; exact ht)
  · intro ctx entry hent htp hpp'
    have hppneg : ¬ (¬ s.partial_take_profit_done = true ∧ cfg.partial_tp_pct > 0 ∧
        ctx.current_price ≥ entry * (1 + cfg.partial_tp_pct)) := by
      rintro ⟨h1, h2, _⟩
      rcases hpp' with hp | hp
      · exact absurd h2 (not_lt.2 hp)
      · exact h1 hp
    unfold check_exit_condition
    rw [hent]
    dsimp only
    rw [if_neg hppneg, if_pos htp, ht]
    dsimp only
    by_cases hb : ctx.current_price * (1 - cfg.trailing_stop_pct) > t
    · rw [if_pos hb]
      have hmax : max t (ctx.current_price * (1 - cfg.trailing_stop_pct)) =
          ctx.current_price * (1 - cfg.trailing_stop_pct) :=
        max_eq_right (le_of_lt hb)
      rw [hmax]
      constructor
      · simp only [apply_ite Prod.fst, ite_self]
      · intro hle
        split
        · exact ⟨rfl, rfl, rfl⟩
        · rename_i hcond
          exact absurd ⟨htp, by simpa using hle⟩ hcond
    · rw [if_neg hb]
      have hmax : max t (ctx.current_price * (1 - cfg.trailing_stop_pct)) = t :=
        max_eq_left (not_lt.1 hb)
      rw [hmax]
      constructor
      · simp only [apply_ite Prod.fst, ite_self]
        exact ht
      · intro hle
        split
        · exact ⟨rfl, rfl, rfl⟩
        · rename_i hcond
          refine absurd ⟨htp, ?_⟩ hcond
          rw [ht]
          simpa using hle

/-- Closed witness for C5 at a LONG state with trailing stop 99 and price
100: the stop ratchets to 99.6. -/
theorem c5_trailing_monotone_witness :
    exampleStateLong.trailing_stop_price = some 99 ∧
    (check_exit_condition exampleCfg exampleEnv exampleStateLong
        { current_price := 100 }).1.trailing_stop_price =
      some (max 99 (100 * (1 - exampleCfg.trailing_stop_pct))) :=
  ⟨rfl,
    ((c5_trailing_monotone exampleCfg exampleEnv {} exampleStateLong 99 rfl).2
      { current_price := 100 } 100 rfl (by norm_num [exampleCfg])
      (Or.inl (by norm_num [exampleCfg]))).1⟩

/-! ## Mode and decision facts feeding the state machine (C2) -/

/-- `evaluate` never changes the mode: only execution does. -/
theorem evaluate_mode (cfg : Config) (env : EvalEnv) (h : IndicatorHist)
    (s : TradingState) : (evaluate cfg env h s).1.mode = s.mode := by
  rcases evaluate_cases cfg env h s with
    ⟨ctx, heq, _⟩ | ⟨h1, ctx, heq, _⟩ | ⟨_, _, heq⟩ | ⟨_, _, heq⟩
  · rw [heq]
    exact check_date_rollover_mode env.today s
  · rw [heq]
    exact check_date_rollover_mode env.today s
  · rw [heq, evaluate_flat_branch_state]
    exact check_date_rollover_mode env.today s
  · rw [heq]
    rcases evaluate_long_branch_state cfg env (check_date_rollover env.today s)
        (update_indicators cfg h (fetch_price cfg env {}).1).1
        (check_blocking_conditions cfg (check_date_rollover env.today s) env
          (update_indicators cfg h (fetch_price cfg env {}).1).2).1 with
      h0 | ⟨b, hb, _⟩
    · rw [h0]
      exact check_date_rollover_mode env.today s
    · rw [hb]
      exact check_date_rollover_mode env.today s

/-- The LONG branch only ever decides SELL or NOOP. -/
theorem evaluate_long_branch_decision (cfg : Config) (env : EvalEnv)
    (s : TradingState) (h : IndicatorHist) (ctx : TradeContext) :
    (evaluate_long_branch cfg env s h ctx).2.2.decision = Decision.SELL ∨
    (evaluate_long_branch cfg env s h ctx).2.2.decision = Decision.NOOP := by
  unfold evaluate_long_branch
  rcases hent : s.entry_price with _ | entry
  · dsimp only
    rw [check_exit_condition_no_entry cfg env s ctx hent]
    right
    rfl
  · dsimp only
    by_cases hdy : cfg.use_dynamic_tp_sl ∧ ctx.atr > 0
    · rw [if_pos hdy]
      rcases hce : check_exit_condition cfg env s
          { ctx with
            tp_price := entry + ctx.atr * cfg.tp_atr_mult,
            sl_price := entry - ctx.atr * cfg.sl_atr_mult }
        with ⟨s2, ctx2, flag⟩
      simp only [hce]
      rcases flag with _ | _
      · right
        rw [if_neg (by decide)]
      · left
        rw [if_pos rfl]
    · rw [if_neg hdy]
      rcases hce : check_exit_condition cfg env s
          { ctx with
            tp_price := entry * (1 + cfg.take_profit_pct),
            sl_price := entry * (1 - cfg.stop_loss_pct) }
        with ⟨s2, ctx2, flag⟩
      simp only [hce]
      rcases flag with _ | _
      · right
        rw [if_neg (by decide)]
      · left
        rw [if_pos rfl]

/-- The FLAT branch never decides SELL. -/
theorem evaluate_flat_branch_not_sell (cfg : Config) (env : EvalEnv)
    (s : TradingState) (h : IndicatorHist) (ctx : TradeContext) :
    (evaluate_flat_branch cfg env s h ctx).2.2.decision ≠ Decision.SELL := by
  unfold evaluate_flat_branch
  dsimp only
  split
  · intro hc
    cases hc
  · rcases hm : check_market_conditions cfg (calculate_sizing cfg s env ctx)
      with ⟨ctxm, mb⟩
    rcases mb with _ | _
    · simp only [hm]
      rcases he : check_entry_condition cfg s ctxm with ⟨ctxe, enter⟩
      simp only [he]
      rcases enter with _ | _ <;> intro hc <;> cases hc
    · simp only [hm]
      have hd : ctxm.decision = Decision.BLOCKED := by
        have hd0 := check_market_true_decision cfg (calculate_sizing cfg s env ctx)
          (by rw [hm])
        rw [hm] at hd0
        exact hd0
      intro hc
      have hc2 : ctxm.decision = Decision.SELL := hc
      rw [hd] at hc2
      cases hc2

/-- A BUY decision can only come from a FLAT state. -/
theorem evaluate_decision_buy (cfg : Config) (env : EvalEnv) (h : IndicatorHist)
    (s : TradingState)
    (hbuy : (evaluate cfg env h s).2.2.decision = Decision.BUY) :
    s.mode = TradingMode.FLAT := by
  rcases evaluate_cases cfg env h s with
    ⟨ctx, heq, hdec⟩ | ⟨h1, ctx, heq, hdec⟩ | ⟨hflat, _, heq⟩ | ⟨hlong, _, heq⟩
  · rw [heq] at hbuy
    rw [hdec] at hbuy
    cases hbuy
  · rw [heq] at hbuy
    rw [hdec] at hbuy
    cases hbuy
  · rw [← check_date_rollover_mode env.today s]
    exact hflat
  · rw [heq] at hbuy
    rcases evaluate_long_branch_decision cfg env (check_date_rollover env.today s)
        (update_indicators cfg h (fetch_price cfg env {}).1).1
        (check_blocking_conditions cfg (check_date_rollover env.today s) env
          (update_indicators cfg h (fetch_price cfg env {}).1).2).1 with
      hd | hd <;> rw [hd] at hbuy <;> cases hbuy

/-- A SELL decision can only come from a LONG state. -/
theorem evaluate_decision_sell (cfg : Config) (env : EvalEnv) (h : IndicatorHist)
    (s : TradingState)
    (hsell : (evaluate cfg env h s).2.2.decision = Decision.SELL) :
    s.mode = TradingMode.LONG := by
  rcases evaluate_cases cfg env h s with
    ⟨ctx, heq, hdec⟩ | ⟨h1, ctx, heq, hdec⟩ | ⟨hflat, _, heq⟩ | ⟨hlong, _, heq⟩
  · rw [heq] at hsell
    rw [hdec] at hsell
    cases hsell
  · rw [heq] at hsell
    rw [hdec] at hsell
    cases hsell
  · rw [heq] at hsell
    exact absurd hsell (evaluate_flat_branch_not_sell cfg env _ _ _)
  · rw [← check_date_rollover_mode env.today s]
    exact hlong

/-- `execute_buy` either fails leaving the state untouched, or succeeds
and the state is LONG. -/
theorem execute_buy_shape (cfg : Config) (e : ExecEnv) (s : TradingState)
    (ctx : TradeContext) :
    ((execute_buy cfg e s ctx).ok = false ∧ (execute_buy cfg e s ctx).state = s) ∨
    ((execute_buy cfg e s ctx).ok = true ∧
      (execute_buy cfg e s ctx).state.mode = TradingMode.LONG) := by
  unfold execute_buy
  by_cases hd : cfg.dry_run = true
  · rw [if_pos hd]
    right
    refine ⟨rfl, ?_⟩
    unfold simulate_fill
    rw [if_pos rfl]
  · rw [if_neg hd]
    by_cases ho : e.order.success = true
    · rw [if_neg (by simp [ho])]
      rcases hw : wait_for_fill e.queries 10 0 with _ | fill
      · left
        exact ⟨rfl, rfl⟩
      · right
        exact ⟨rfl, rfl⟩
    · rw [if_pos (by simp [ho])]
      left
      exact ⟨rfl, rfl⟩

/-- `execute_sell` from a LONG state either fails leaving the state
untouched, or succeeds ending FLAT (full exit) or still LONG with a
positive residual position (partial exit). -/
theorem execute_sell_shape (cfg : Config) (e : ExecEnv) (s : TradingState)
    (ctx : TradeContext) (hmode : s.mode = TradingMode.LONG) :
    ((execute_sell cfg e s ctx).ok = false ∧ (execute_sell cfg e s ctx).state = s) ∨
    ((execute_sell cfg e s ctx).ok = true ∧
      ((execute_sell cfg e s ctx).state.mode = TradingMode.FLAT ∨
        ((execute_sell cfg e s ctx).state.mode = TradingMode.LONG ∧
          (execute_sell cfg e s ctx).state.btc_amount > 0))) := by
  unfold execute_sell
  dsimp only
  generalize (if cfg.dry_run = true then s.sim_btc_balance else s.btc_amount) = cb
  generalize (if ctx.sell_volume > 0 then ctx.sell_volume else cb) = v0
  generalize (if v0 > cb then cb else v0) = v1
  by_cases h0 : v0 ≤ 0
  · rw [if_pos h0]
    left
    exact ⟨rfl, rfl⟩
  · rw [if_neg h0]
    by_cases hd : cfg.dry_run = true
    · rw [if_pos hd]
      right
      refine ⟨rfl, ?_⟩
      unfold simulate_fill
      rw [if_neg (by decide)]
      dsimp only
      split
      · right
        rename_i hres
        exact ⟨hmode, hres⟩
      · left
        rfl
    · rw [if_neg hd]
      by_cases ho : e.order.success = true
      · rw [if_neg (by simp [ho])]
        rcases hw : wait_for_fill e.queries 10 0 with _ | fill
        · left
          exact ⟨rfl, rfl⟩
        · right
          refine ⟨rfl, ?_⟩
          dsimp only
          split
          · rename_i hres
            right
            exact ⟨rfl, hres.2⟩
          · left
            rfl
      · rw [if_pos (by simp [ho])]
        left
        exact ⟨rfl, rfl⟩

/-- A successful ticker quoting 84480 CAD, below the worked rebuy level. -/
def exampleTickerBuy : TickerResult :=
  { success := true, last_price := 84480, bid_price := 84480,
    ask_price := 84480, timestamp := 0 }

/-- The quiet environment with the 84480 ticker attached. -/
def exampleEnvBuy : EvalEnv :=
  { exampleEnv with ticker := exampleTickerBuy }

/-- An execution environment for a dry-run cycle (no live order placed). -/
def exampleExecEnv : ExecEnv :=
  { order := {}, queries := fun _ => {}, now := 0 }

/-- C2: over one full cycle (evaluate + execute), BUY decisions only arise
from FLAT states and SELL decisions only from LONG states; a FLAT state
either stays FLAT or moves to LONG exactly on a successfully executed BUY;
a LONG state either stays LONG or moves to FLAT exactly on a successfully
executed SELL; and a successfully executed SELL that leaves the bot LONG
(a partial exit) leaves a positive residual position. -/
theorem c2_mode_state_machine (cfg : Config) (env : EvalEnv) (e : ExecEnv)
    (h : IndicatorHist) (s : TradingState) :
    ((cycle cfg env e h s).2.2.1.decision = Decision.BUY →
      s.mode = TradingMode.FLAT) ∧
    ((cycle cfg env e h s).2.2.1.decision = Decision.SELL →
      s.mode = TradingMode.LONG) ∧
    (s.mode = TradingMode.FLAT →
      ((cycle cfg env e h s).1.mode = TradingMode.FLAT ∨
        ((cycle cfg env e h s).1.mode = TradingMode.LONG ∧
          (cycle cfg env e h s).2.2.1.decision = Decision.BUY ∧
          (cycle cfg env e h s).2.2.2 = true))) ∧
    (s.mode = TradingMode.LONG →
      ((cycle cfg env e h s).1.mode = TradingMode.LONG ∨
        ((cycle cfg env e h s).1.mode = TradingMode.FLAT ∧
          (cycle cfg env e h s).2.2.1.decision = Decision.SELL ∧
          (cycle cfg env e h s).2.2.2 = true))) ∧
    ((cycle cfg env e h s).2.2.1.decision = Decision.SELL →
      (cycle cfg env e h s).2.2.2 = true →
      (cycle cfg env e h s).1.mode = TradingMode.LONG →
      (cycle cfg env e h s).1.btc_amount > 0) := by
  rcases heval : evaluate cfg env h s with ⟨s1, hh⟩
  rcases hh with ⟨h1, ctx⟩
  have hs1mode : s1.mode = s.mode := by
    have hm := evaluate_mode cfg env h s
    rw [heval] at hm
    exact hm
  unfold cycle
  rw [heval]
  dsimp only
  by_cases hbs : ctx.decision = Decision.BUY ∨ ctx.decision = Decision.SELL
  · rw [if_pos hbs]
    dsimp only
    rcases hbs with hb | hsl
    · have hflat : s.mode = TradingMode.FLAT := by
        apply evaluate_decision_buy cfg env h s
        rw [heval]
        exact hb
      unfold execute
      rw [hb]
      dsimp only
      refine ⟨fun _ => hflat, ?_, ?_, ?_, ?_⟩
      · intro hc
        cases hc
      · intro _
        rcases execute_buy_shape cfg e s1 ctx with ⟨hok, hst⟩ | ⟨hok, hm⟩
        · left
          rw [hst, hs1mode]
          exact hflat
        · right
          exact ⟨hm, rfl, hok⟩
      · intro hlong
        rw [hflat] at hlong
        cases hlong
      · intro hc
        cases hc
    · have hlong : s.mode = TradingMode.LONG := by
        apply evaluate_decision_sell cfg env h s
        rw [heval]
        exact hsl
      have hs1long : s1.mode = TradingMode.LONG := by
        rw [hs1mode]
        exact hlong
      unfold execute
      rw [hsl]
      dsimp only
      refine ⟨?_, fun _ => hlong, ?_, ?_, ?_⟩
      · intro hc
        cases hc
      · intro hf
        rw [hlong] at hf
        cases hf
      · intro _
        rcases execute_sell_shape cfg e s1 ctx hs1long with ⟨hok, hst⟩ | ⟨hok, hmm⟩
        · left
          rw [hst]
          exact hs1long
        · rcases hmm with hfm | ⟨hlm, _⟩
          · right
            exact ⟨hfm, rfl, hok⟩
          · left
            exact hlm
      · intro _ hok hlm
        rcases execute_sell_shape cfg e s1 ctx hs1long with ⟨hok2, hst⟩ | ⟨_, hmm⟩
        · rw [hok2] at hok
          cases hok
        · rcases hmm with hfm | ⟨_, hbtc⟩
          · rw [hfm] at hlm
            cases hlm
          · exact hbtc
  · rw [if_neg hbs]
    dsimp only
    refine ⟨?_, ?_, ?_, ?_, ?_⟩
    · intro hb
      exact absurd (Or.inl hb) hbs
    · intro hsl
      exact absurd (Or.inr hsl) hbs
    · intro hf
      left
      rw [hs1mode]
      exact hf
    · intro hl
      left
      rw [hs1mode]
      exact hl
    · intro hsl
      exact absurd (Or.inr hsl) hbs

/-- C2 witness: the dry-run cycle on the worked FLAT state with the ticker
at 84480 decides BUY, so the state machine theorem applies with all
hypotheses discharged: the pre-state is FLAT and the cycle either keeps it
FLAT or ends LONG on the executed BUY. -/
theorem c2_mode_state_machine_witness :
    (cycle exampleCfg exampleEnvBuy exampleExecEnv {} exampleStateExit).2.2.1.decision
        = Decision.BUY ∧
    exampleStateExit.mode = TradingMode.FLAT ∧
    ((cycle exampleCfg exampleEnvBuy exampleExecEnv {} exampleStateExit).1.mode
        = TradingMode.FLAT ∨
      ((cycle exampleCfg exampleEnvBuy exampleExecEnv {} exampleStateExit).1.mode
          = TradingMode.LONG ∧
        (cycle exampleCfg exampleEnvBuy exampleExecEnv {}
            exampleStateExit).2.2.1.decision = Decision.BUY ∧
        (cycle exampleCfg exampleEnvBuy exampleExecEnv {}
            exampleStateExit).2.2.2 = true)) := by
  have hbuy : (cycle exampleCfg exampleEnvBuy exampleExecEnv {}
      exampleStateExit).2.2.1.decision = Decision.BUY := by
    norm_num [cycle, evaluate, check_date_rollover, fetch_price,
      update_indicators, check_blocking_conditions, is_in_cooldown,
      evaluate_flat_branch, calculate_sizing, sizing_from_balances,
      check_market_conditions, passes_volatility_filter, passes_trend_filter,
      check_entry_condition, execute, execute_buy, simulate_fill, exampleCfg,
      exampleStateExit, exampleStateFlat, default_state, exampleEnvBuy,
      exampleEnv, exampleTickerBuy, exampleExecEnv]
  exact ⟨hbuy,
    (c2_mode_state_machine exampleCfg exampleEnvBuy exampleExecEnv {}
      exampleStateExit).1 hbuy,
    (c2_mode_state_machine exampleCfg exampleEnvBuy exampleExecEnv {}
      exampleStateExit).2.2.1
      ((c2_mode_state_machine exampleCfg exampleEnvBuy exampleExecEnv {}
        exampleStateExit).1 hbuy)⟩


/-- `wait_for_fill` only ever returns a response it has verified to be a
successful query with status `closed`. -/
theorem wait_for_fill_closed (queries : ℕ → OrderResult) :
    ∀ fuel i r, wait_for_fill queries fuel i = some r →
      r.success = true ∧ r.status = "closed" := by
  intro fuel
  induction fuel with
  | zero =>
    intro i r hr
    simp [wait_for_fill] at hr
  | succ n ih =>
    intro i r hr
    unfold wait_for_fill at hr
    dsimp only at hr
    by_cases hc : (queries i).success = true ∧ (queries i).status = "closed"
    · rw [if_pos hc] at hr
      injection hr with hr
      rw [← hr]
      exact hc
    · rw [if_neg hc] at hr
      by_cases hd : (queries i).error ≠ "" ∧
          ((queries i).status = "canceled" ∨ (queries i).status = "expired")
      · rw [if_pos hd] at hr
        cases hr
      · rw [if_neg hd] at hr
        exact ih (i + 1) r hr

/-- A live-mode configuration: the worked config with `dry_run` off. -/
def cfgLiveW : Config :=
  { exampleCfg with dry_run := false }

/-- C1: in live mode, `execute_buy` and `execute_sell` save a mutated state
exactly when order submission succeeded and the bounded `wait_for_fill`
poll (10 attempts) confirmed a `closed` fill (for a sell, additionally
only when there was a positive amount to sell); saving coincides with the
success return, and on any failure return the persisted state is exactly
the pre-attempt state. -/
theorem c1_fill_confirmation (cfg : Config) (e : ExecEnv) (s : TradingState)
    (ctx : TradeContext) (hlive : cfg.dry_run = false) :
    (∀ r, wait_for_fill e.queries 10 0 = some r →
      r.success = true ∧ r.status = "closed") ∧
    ((execute_buy cfg e s ctx).saved = true ↔
      (e.order.success = true ∧ (wait_for_fill e.queries 10 0).isSome = true)) ∧
    ((execute_buy cfg e s ctx).saved = (execute_buy cfg e s ctx).ok) ∧
    ((execute_buy cfg e s ctx).ok = false → (execute_buy cfg e s ctx).state = s) ∧
    ((execute_sell cfg e s ctx).saved = true ↔
      (0 < (if ctx.sell_volume > 0 then ctx.sell_volume else s.btc_amount) ∧
        e.order.success = true ∧ (wait_for_fill e.queries 10 0).isSome = true)) ∧
    ((execute_sell cfg e s ctx).saved = (execute_sell cfg e s ctx).ok) ∧
    ((execute_sell cfg e s ctx).ok = false →
      (execute_sell cfg e s ctx).state = s) := by
  have hcnd : ¬(cfg.dry_run = true) := by simp [hlive]
  refine ⟨fun r => wait_for_fill_closed e.queries 10 0 r, ?_⟩
  have hbuy : ((execute_buy cfg e s ctx).saved = true ↔
      (e.order.success = true ∧ (wait_for_fill e.queries 10 0).isSome = true)) ∧
      ((execute_buy cfg e s ctx).saved = (execute_buy cfg e s ctx).ok) ∧
      ((execute_buy cfg e s ctx).ok = false →
        (execute_buy cfg e s ctx).state = s) := by
    by_cases ho : e.order.success = true
    · rcases hw : wait_for_fill e.queries 10 0 with _ | fill
      · have hres : execute_buy cfg e s ctx =
            { ok := false, state := s, saved := false } := by
          unfold execute_buy
          rw [if_neg hcnd, if_neg (by simp [ho]), hw]
        rw [hres]
        simp
      · have hok : (execute_buy cfg e s ctx).ok = true := by
          unfold execute_buy
          rw [if_neg hcnd, if_neg (by simp [ho]), hw]
        have hsv : (execute_buy cfg e s ctx).saved = true := by
          unfold execute_buy
          rw [if_neg hcnd, if_neg (by simp [ho]), hw]
        rw [hok, hsv]
        simp [ho, hw]
    · have hres : execute_buy cfg e s ctx =
          { ok := false, state := s, saved := false } := by
        unfold execute_buy
        rw [if_neg hcnd, if_pos (by simp [ho])]
      rw [hres]
      simp [ho]
  refine ⟨hbuy.1, hbuy.2.1, hbuy.2.2, ?_⟩
  by_cases h0 : (if ctx.sell_volume > 0 then ctx.sell_volume else s.btc_amount) ≤ 0
  · have hres : execute_sell cfg e s ctx =
        { ok := false, state := s, saved := false } := by
      unfold execute_sell
      dsimp only
      rw [if_neg hcnd, if_pos h0]
    rw [hres]
    refine ⟨?_, rfl, fun _ => rfl⟩
    constructor
    · intro hfalse
      simp at hfalse
    · intro hcontra
      exact absurd h0 (not_le.mpr hcontra.1)
  · by_cases ho : e.order.success = true
    · rcases hw : wait_for_fill e.queries 10 0 with _ | fill
      · have hres : execute_sell cfg e s ctx =
            { ok := false, state := s, saved := false } := by
          unfold execute_sell
          dsimp only
          rw [if_neg hcnd, if_neg h0, if_neg hcnd, if_neg (by simp [ho]), hw]
        rw [hres]
        simp [hw]
      · have hok : (execute_sell cfg e s ctx).ok = true := by
          unfold execute_sell
          dsimp only
          rw [if_neg hcnd, if_neg h0, if_neg hcnd, if_neg (by simp [ho]), hw]
        have hsv : (execute_sell cfg e s ctx).saved = true := by
          unfold execute_sell
          dsimp only
          rw [if_neg hcnd, if_neg h0, if_neg hcnd, if_neg (by simp [ho]), hw]
        rw [hok, hsv]
        refine ⟨?_, rfl, fun hc => absurd hc (by simp)⟩
        simp [ho, hw, not_le.mp h0]
    · have hres : execute_sell cfg e s ctx =
          { ok := false, state := s, saved := false } := by
        unfold execute_sell
        dsimp only
        rw [if_neg hcnd, if_neg h0, if_neg hcnd, if_pos (by simp [ho])]
      rw [hres]
      simp [ho]

/-- C1 witness: at a live config with a failed order submission, the buy
returns failure with the state untouched and unsaved, as the theorem
demands; the hypothesis `dry_run = false` holds definitionally. -/
theorem c1_fill_confirmation_witness :
    cfgLiveW.dry_run = false ∧
    (execute_buy cfgLiveW exampleExecEnv exampleStateFlat {}).ok = false ∧
    (execute_buy cfgLiveW exampleExecEnv exampleStateFlat {}).state
        = exampleStateFlat ∧
    (execute_sell cfgLiveW exampleExecEnv exampleStateFlat {}).saved
        = (execute_sell cfgLiveW exampleExecEnv exampleStateFlat {}).ok := by
  have hc := c1_fill_confirmation cfgLiveW exampleExecEnv exampleStateFlat {} rfl
  have hokf : (execute_buy cfgLiveW exampleExecEnv exampleStateFlat {}).ok
      = false := rfl
  exact ⟨rfl, hokf, hc.2.2.2.1 hokf, hc.2.2.2.2.2.1⟩


/-- C8: a failed request bumps the consecutive-failure counter and sets the
backoff to the initial value when it was zero and to double-capped-at-max
otherwise, plus the sampled jitter (which ranges over [0, 50%] of the new
base), so the next request is delayed by `min_delay + backoff`; a
successful request resets both the backoff and the failure counter to
zero. -/
theorem c8_backoff_policy (init maxb min_delay jitter : ℕ) (st : ClientState)
    (hj : jitter ≤ backoff_base init maxb st / 2) :
    (http_request_step init maxb false jitter st).consecutive_failures =
      st.consecutive_failures + 1 ∧
    (backoff_base init maxb st =
      if st.current_backoff_ms = 0 then init
      else min (st.current_backoff_ms * 2) maxb) ∧
    (http_request_step init maxb false jitter st).current_backoff_ms =
      backoff_base init maxb st + jitter ∧
    backoff_base init maxb st ≤
      (http_request_step init maxb false jitter st).current_backoff_ms ∧
    (http_request_step init maxb false jitter st).current_backoff_ms ≤
      backoff_base init maxb st + backoff_base init maxb st / 2 ∧
    effective_delay min_delay (http_request_step init maxb false jitter st) =
      min_delay + (backoff_base init maxb st + jitter) ∧
    (http_request_step init maxb true jitter st).current_backoff_ms = 0 ∧
    (http_request_step init maxb true jitter st).consecutive_failures = 0 := by
  have hfail : http_request_step init maxb false jitter st =
      { consecutive_failures := st.consecutive_failures + 1,
        current_backoff_ms := backoff_base init maxb st + jitter } := by
    simp [http_request_step, apply_backoff, backoff_base]
  have hsucc : http_request_step init maxb true jitter st =
      { consecutive_failures := 0, current_backoff_ms := 0 } := by
    simp [http_request_step, reset_backoff]
  rw [hfail, hsucc]
  exact ⟨rfl, rfl, rfl, Nat.le_add_right _ _, Nat.add_le_add_left hj _,
    rfl, rfl, rfl⟩

/-- C8 witness: with a 1000 ms current backoff, a 30 s cap and a sampled
jitter of 250 ms (within half of the new 2000 ms base), a failure moves
the backoff to 2250 ms, and a success clears the failure counter. -/
theorem c8_backoff_policy_witness :
    250 ≤ backoff_base 1000 30000
        { consecutive_failures := 2, current_backoff_ms := 1000 } / 2 ∧
    (http_request_step 1000 30000 false 250
        { consecutive_failures := 2,
          current_backoff_ms := 1000 }).current_backoff_ms = 2250 ∧
    (http_request_step 1000 30000 true 250
        { consecutive_failures := 2,
          current_backoff_ms := 1000 }).consecutive_failures = 0 := by
  have hc := c8_backoff_policy 1000 30000 500 250
    { consecutive_failures := 2, current_backoff_ms := 1000 } (by decide)
  refine ⟨by decide, ?_, hc.2.2.2.2.2.2.2⟩
  rw [hc.2.2.1]
  decide

/-- A price field of the state file that the C++ guards actually cope with:
absent, JSON null, or a JSON number. -/
def price_field_ok (v? : Option Json) : Prop :=
  match v? with
  | none => True
  | some v => v.isNull = true ∨ ∃ q, v = Json.num q

/-- C10 counterexample: `TradingState::load` is NOT total on parsed files.
A state file whose `entry_price` is a non-null non-number (here the string
"bad") passes the `!is_null()` guard and then throws nlohmann's
`type_error` out of `load` (modelled as `Except.error`), instead of
falling back to the default state. -/
theorem c10_load_counterexample :
    TradingState.load
        (FileRead.parsed (Json.obj [("entry_price", Json.str "bad")]))
        (fun _ => 0) "2026-01-01" =
      Except.error "type must be number" := by
  rfl

/-- `Except`'s bind on a success value just applies the continuation. -/
theorem except_bind_ok {α β ε : Type} (a : α) (f : α → Except ε β) :
    (Except.ok a >>= f : Except ε β) = f a := rfl

/-- The price-field extraction succeeds on every field shape the C++
guards cope with. -/
theorem load_price_field_ok (v? : Option Json) (st : TradingState)
    (upd : TradingState → ℚ → TradingState) (h : price_field_ok v?) :
    ∃ a, load_price_field v? st upd = Except.ok a := by
  unfold price_field_ok at h
  unfold load_price_field
  rcases v? with _ | v
  · exact ⟨st, rfl⟩
  · dsimp only
    rcases h with hnull | ⟨q, rfl⟩
    · rw [if_pos hnull]
      exact ⟨st, rfl⟩
    · rw [if_neg (by simp [Json.isNull])]
      exact ⟨_, rfl⟩

/-- C10 (amended): a missing, unopenable or unparseable state file loads as
the default state (FLAT, no prices or trade history, dated today); an
unrecognized mode string parses as FLAT; and `load` is total on every
parsed file whose `entry_price`/`exit_price` fields are absent, null or
numeric — but not in general, see the counterexample. -/
theorem c10_load_defaults (isoParse : String → ℤ) (today : String) :
    (TradingState.load FileRead.missing isoParse today =
        Except.ok (default_state today) ∧
      TradingState.load FileRead.unopenable isoParse today =
        Except.ok (default_state today) ∧
      TradingState.load FileRead.parseFailure isoParse today =
        Except.ok (default_state today)) ∧
    ((default_state today).mode = TradingMode.FLAT ∧
      (default_state today).entry_price = none ∧
      (default_state today).exit_price = none ∧
      (default_state today).last_trade_time = none ∧
      (default_state today).btc_amount = 0 ∧
      (default_state today).trades_today = 0 ∧
      (default_state today).trades_date_yyyy_mm_dd = today) ∧
    (∀ s, s ≠ "FLAT" → s ≠ "LONG" → string_to_mode s = TradingMode.FLAT) ∧
    (∀ j, price_field_ok (j.find "entry_price") →
      price_field_ok (j.find "exit_price") →
      ∃ st, TradingState.load (FileRead.parsed j) isoParse today =
        Except.ok st) := by
  refine ⟨⟨rfl, rfl, rfl⟩, ⟨rfl, rfl, rfl, rfl, rfl, rfl, rfl⟩, ?_, ?_⟩
  · intro s h1 h2
    unfold string_to_mode
    rw [if_neg h1, if_neg h2]
  · intro j hent hexit
    unfold TradingState.load
    dsimp only
    rcases load_price_field_ok (j.find "entry_price") _ _ hent with ⟨a1, h1⟩
    rw [h1, except_bind_ok]
    rcases load_price_field_ok (j.find "exit_price") _ _ hexit with ⟨a2, h2⟩
    rw [h2, except_bind_ok]
    exact ⟨_, rfl⟩

/-- C10 witness: a parsed file with an unknown mode string and a null
entry price loads successfully, and the unknown mode falls back to FLAT. -/
theorem c10_load_defaults_witness :
    string_to_mode "WEIRD" = TradingMode.FLAT ∧
    ∃ st, TradingState.load
        (FileRead.parsed (Json.obj
          [("mode", Json.str "WEIRD"), ("entry_price", Json.null)]))
        (fun _ => 0) "2026-01-01" = Except.ok st := by
  have hc := c10_load_defaults (fun _ => 0) "2026-01-01"
  exact ⟨hc.2.2.1 "WEIRD" (by decide) (by decide),
    hc.2.2.2 (Json.obj [("mode", Json.str "WEIRD"), ("entry_price", Json.null)])
      (by exact Or.inl rfl)
      (by exact trivial)⟩


/-- Feeding a whole sequence of price samples through
`Strategy::update_indicators`, as the main loop does one cycle at a time
(each cycle starts from a fresh context holding just the fetched price). -/
def feed_prices (cfg : Config) (h : IndicatorHist) (ps : List ℚ) :
    IndicatorHist :=
  ps.foldl (fun hh p => (update_indicators cfg hh { current_price := p }).1) h

/-- One `update_indicators` step keeps both rolling windows within their
configured capacities. -/
theorem update_indicators_bounds (cfg : Config) (h : IndicatorHist)
    (ctx : TradeContext)
    (ht : (h.trHistory.length : ℤ) ≤ max cfg.atr_window 0)
    (hp : (h.priceHistory.length : ℤ) ≤ max cfg.trend_window_long 0) :
    ((update_indicators cfg h ctx).1.trHistory.length : ℤ) ≤
      max cfg.atr_window 0 ∧
    ((update_indicators cfg h ctx).1.priceHistory.length : ℤ) ≤
      max cfg.trend_window_long 0 := by
  unfold update_indicators
  by_cases hpz : ctx.current_price ≤ 0
  · rw [if_pos hpz]
    exact ⟨ht, hp⟩
  · rw [if_neg hpz]
    dsimp only
    constructor
    · rcases hg : h.priceHistory.getLast? with _ | prev
      · exact ht
      · dsimp only
        split
        · rename_i hov
          have hlen : (h.trHistory ++ [|ctx.current_price - prev|]).tail.length =
              h.trHistory.length := by
            simp
          rw [hlen]
          exact ht
        · rename_i hov
          push_neg at hov
          exact le_trans hov (le_max_left _ _)
    · split
      · rename_i hov
        have hlen : (h.priceHistory ++ [ctx.current_price]).tail.length =
            h.priceHistory.length := by
          simp
        rw [hlen]
        exact hp
      · rename_i hov
        push_neg at hov
        exact le_trans hov (le_max_left _ _)

/-- Window bounds hold after feeding any sequence of samples. -/
theorem feed_prices_bounds (cfg : Config) (ps : List ℚ) :
    ∀ h : IndicatorHist,
      (h.trHistory.length : ℤ) ≤ max cfg.atr_window 0 →
      (h.priceHistory.length : ℤ) ≤ max cfg.trend_window_long 0 →
      ((feed_prices cfg h ps).trHistory.length : ℤ) ≤ max cfg.atr_window 0 ∧
      ((feed_prices cfg h ps).priceHistory.length : ℤ) ≤
        max cfg.trend_window_long 0 := by
  induction ps with
  | nil =>
    intro h ht hp
    exact ⟨ht, hp⟩
  | cons p ps ih =>
    intro h ht hp
    have hstep := update_indicators_bounds cfg h { current_price := p } ht hp
    exact ih _ hstep.1 hstep.2

/-- Once the price window is full, `sma_windows` returns the means of the
most recent short and long windows. -/
theorem sma_windows_eq (cfg : Config) (L : List ℚ) (fb : ℚ × ℚ)
    (hshort : 0 < cfg.trend_window_short)
    (hsl : cfg.trend_window_short ≤ cfg.trend_window_long)
    (hlen : (L.length : ℤ) ≥ cfg.trend_window_long) :
    sma_windows cfg L fb =
      ((L.drop (L.length - cfg.trend_window_short.toNat)).sum /
        (cfg.trend_window_short.toNat : ℚ),
       (L.drop (L.length - cfg.trend_window_long.toNat)).sum /
        (cfg.trend_window_long.toNat : ℚ)) := by
  unfold sma_windows
  dsimp only
  have htn : cfg.trend_window_short.toNat ≤ cfg.trend_window_long.toNat := by
    omega
  have hmax : max (L.length - cfg.trend_window_long.toNat)
      (L.length - cfg.trend_window_short.toNat) =
      L.length - cfg.trend_window_short.toNat :=
    max_eq_right (Nat.sub_le_sub_left htn _)
  rw [hmax]
  have hlongle : cfg.trend_window_long.toNat ≤ L.length := by
    omega
  have hlen1 : (L.drop (L.length - cfg.trend_window_short.toNat)).length =
      cfg.trend_window_short.toNat := by
    rw [List.length_drop]
    omega
  have hlen2 : (L.drop (L.length - cfg.trend_window_long.toNat)).length =
      cfg.trend_window_long.toNat := by
    rw [List.length_drop]
    omega
  rw [hlen1, hlen2,
    if_pos (show cfg.trend_window_short.toNat ≠ 0 by omega),
    if_pos (show cfg.trend_window_long.toNat ≠ 0 by omega)]

/-- C9: on each new positive price sample, the appended true-range value is
the absolute difference with the previous sample and the oldest entry is
evicted once the ATR window is over capacity; both windows stay within
their capacities over every sequence of samples; ATR is the arithmetic
mean of the true-range window; the SMAs keep their zero placeholders until
the price window holds `trend_window_long` samples and thereafter are the
means of the most recent short/long windows; and the relative spread
`(ask - bid) / midpoint` is computed exactly when `ask ≥ bid > 0`,
otherwise left unchanged. -/
theorem c9_indicators (cfg : Config) (ctx : TradeContext) :
    (∀ h : IndicatorHist, ∀ prev, 0 < ctx.current_price →
      h.priceHistory.getLast? = some prev →
      (update_indicators cfg h ctx).1.trHistory =
        (if ((h.trHistory ++ [|ctx.current_price - prev|]).length : ℤ) >
            cfg.atr_window
         then (h.trHistory ++ [|ctx.current_price - prev|]).tail
         else h.trHistory ++ [|ctx.current_price - prev|])) ∧
    (∀ h : IndicatorHist, ∀ ps : List ℚ,
      (h.trHistory.length : ℤ) ≤ max cfg.atr_window 0 →
      (h.priceHistory.length : ℤ) ≤ max cfg.trend_window_long 0 →
      ((feed_prices cfg h ps).trHistory.length : ℤ) ≤ max cfg.atr_window 0 ∧
      ((feed_prices cfg h ps).priceHistory.length : ℤ) ≤
        max cfg.trend_window_long 0) ∧
    (∀ h : IndicatorHist, 0 < ctx.current_price → cfg.atr_window > 0 →
      (update_indicators cfg h ctx).1.trHistory ≠ [] →
      (update_indicators cfg h ctx).2.atr =
        (update_indicators cfg h ctx).1.trHistory.sum /
          ((update_indicators cfg h ctx).1.trHistory.length : ℚ)) ∧
    (∀ h : IndicatorHist, 0 < ctx.current_price → ctx.sma_short = 0 →
      ctx.sma_long = 0 →
      ((update_indicators cfg h ctx).1.priceHistory.length : ℤ) <
        cfg.trend_window_long →
      (update_indicators cfg h ctx).2.sma_short = 0 ∧
      (update_indicators cfg h ctx).2.sma_long = 0) ∧
    (∀ h : IndicatorHist, 0 < ctx.current_price →
      0 < cfg.trend_window_short →
      cfg.trend_window_short ≤ cfg.trend_window_long →
      ((update_indicators cfg h ctx).1.priceHistory.length : ℤ) ≥
        cfg.trend_window_long →
      (update_indicators cfg h ctx).2.sma_short =
        ((update_indicators cfg h ctx).1.priceHistory.drop
          ((update_indicators cfg h ctx).1.priceHistory.length -
            cfg.trend_window_short.toNat)).sum /
          (cfg.trend_window_short.toNat : ℚ) ∧
      (update_indicators cfg h ctx).2.sma_long =
        ((update_indicators cfg h ctx).1.priceHistory.drop
          ((update_indicators cfg h ctx).1.priceHistory.length -
            cfg.trend_window_long.toNat)).sum /
          (cfg.trend_window_long.toNat : ℚ)) ∧
    (∀ h : IndicatorHist, 0 < ctx.current_price →
      (0 < ctx.bid_price → 0 < ctx.ask_price → ctx.bid_price ≤ ctx.ask_price →
        (update_indicators cfg h ctx).2.spread_pct =
          (ctx.ask_price - ctx.bid_price) /
            ((ctx.bid_price + ctx.ask_price) / 2)) ∧
      (¬(ctx.bid_price > 0 ∧ ctx.ask_price > 0 ∧
          ctx.ask_price ≥ ctx.bid_price) →
        (update_indicators cfg h ctx).2.spread_pct = ctx.spread_pct)) := by
  refine ⟨?_, fun h ps ht hp => feed_prices_bounds cfg ps h ht hp, ?_, ?_, ?_, ?_⟩
  · intro h prev hpz hlast
    unfold update_indicators
    rw [if_neg (not_le.mpr hpz)]
    dsimp only
    rw [hlast]
  · intro h hpz hw hne
    have hpz0 : ¬ ctx.current_price ≤ 0 := not_le.mpr hpz
    unfold update_indicators at hne ⊢
    rw [if_neg hpz0] at hne ⊢
    dsimp only at hne ⊢
    rw [if_pos ⟨hw, hne⟩]
  · intro h hpz hs0 hl0 hlt
    have hpz0 : ¬ ctx.current_price ≤ 0 := not_le.mpr hpz
    unfold update_indicators at hlt ⊢
    rw [if_neg hpz0] at hlt ⊢
    dsimp only at hlt ⊢
    rw [if_neg (fun hc => absurd hc.2.2 (not_le.mpr hlt))]
    exact ⟨hs0, hl0⟩
  · intro h hpz hshort hsl hlen
    have hpz0 : ¬ ctx.current_price ≤ 0 := not_le.mpr hpz
    have hlong : (0 : ℤ) < cfg.trend_window_long := lt_of_lt_of_le hshort hsl
    unfold update_indicators at hlen ⊢
    rw [if_neg hpz0] at hlen ⊢
    dsimp only at hlen ⊢
    rw [if_pos ⟨hshort, hlong, hlen⟩, sma_windows_eq cfg _ _ hshort hsl hlen]
    exact ⟨rfl, rfl⟩
  · intro h hpz
    have hpz0 : ¬ ctx.current_price ≤ 0 := not_le.mpr hpz
    constructor
    · intro hb ha hba
      unfold update_indicators
      rw [if_neg hpz0]
      dsimp only
      rw [if_pos ⟨hb, ha, hba⟩,
        if_pos (show (0 : ℚ) < (ctx.bid_price + ctx.ask_price) / 2 from
          div_pos (add_pos hb ha) two_pos)]
    · intro hn
      unfold update_indicators
      rw [if_neg hpz0]
      dsimp only
      rw [if_neg hn]

/-- A context carrying a fresh positive price sample of 4 CAD with bid 1
and ask 2, entering with the zero SMA placeholders. -/
def ctxW9 : TradeContext :=
  { current_price := 4, bid_price := 1, ask_price := 2 }

/-- A history of two prices (last 3) and one true range. -/
def hW9 : IndicatorHist :=
  { priceHistory := [4, 3], trHistory := [1] }

/-- C9 witness: on the concrete history ([4, 3] prices, one TR) and the
fresh sample at 4, every hypothesis of the indicator theorem is
dischargeable: the ATR is the TR-window mean, the short SMA is the mean of
the most recent two prices, the spread follows the midpoint formula, and
five samples fed from an empty history stay within the window bounds. -/
theorem c9_indicators_witness :
    0 < ctxW9.current_price ∧
    (update_indicators exampleCfg hW9 ctxW9).2.atr =
      (update_indicators exampleCfg hW9 ctxW9).1.trHistory.sum /
        ((update_indicators exampleCfg hW9 ctxW9).1.trHistory.length : ℚ) ∧
    (update_indicators exampleCfg hW9 ctxW9).2.sma_short =
      ((update_indicators exampleCfg hW9 ctxW9).1.priceHistory.drop
        ((update_indicators exampleCfg hW9 ctxW9).1.priceHistory.length -
          exampleCfg.trend_window_short.toNat)).sum /
        (exampleCfg.trend_window_short.toNat : ℚ) ∧
    (update_indicators exampleCfg hW9 ctxW9).2.spread_pct =
      (ctxW9.ask_price - ctxW9.bid_price) /
        ((ctxW9.bid_price + ctxW9.ask_price) / 2) ∧
    ((feed_prices exampleCfg {} [1, 2, 3, 4, 5]).priceHistory.length : ℤ) ≤
      max exampleCfg.trend_window_long 0 := by
  have hc := c9_indicators exampleCfg ctxW9
  refine ⟨by norm_num [ctxW9], ?_, ?_, ?_, ?_⟩
  · refine hc.2.2.1 hW9 (by norm_num [ctxW9]) (by norm_num [exampleCfg]) ?_
    norm_num [update_indicators, exampleCfg, hW9, ctxW9]
    simp
  · exact (hc.2.2.2.2.1 hW9 (by norm_num [ctxW9]) (by norm_num [exampleCfg])
      (by norm_num [exampleCfg])
      (by norm_num [update_indicators, exampleCfg, hW9, ctxW9])).1
  · exact (hc.2.2.2.2.2 hW9 (by norm_num [ctxW9])).1 (by norm_num [ctxW9])
      (by norm_num [ctxW9]) (by norm_num [ctxW9])
  · exact (hc.2.1 {} [1, 2, 3, 4, 5] (by norm_num [exampleCfg])
      (by norm_num [exampleCfg])).2


end TradeBot
